import Mathlib

/-!
Verification development for the vfh_star traversability map generator
(TraversabilityMapGenerator.cpp).  The map pipeline is embedded shallowly:
grid cells are exact rationals, C++ doubles are modelled by ℚ, the minus
DBL_MAX no-data sentinel of a cell maximum is modelled by Option.none, and
integer grid indices are ℤ.  External Eigen and base-library geometry
(transforms, quaternions, arccos) is abstracted behind explicit function
parameters; everything that appears in the repository sources is translated
operation by operation.
-/

set_option maxHeartbeats 1600000

namespace VfhStar

/-- World vectors, modelling Eigen Vector3d with exact rational coordinates. -/
abbrev V : Type := ℚ × ℚ × ℚ

/-- Componentwise vector addition. -/
def addV (a b : V) : V := (a.1 + b.1, a.2.1 + b.2.1, a.2.2 + b.2.2)

/-- Componentwise vector subtraction. -/
def subV (a b : V) : V := (a.1 - b.1, a.2.1 - b.2.1, a.2.2 - b.2.2)

/-- Scaling of a vector by a rational. -/
def scaleV (c : ℚ) (v : V) : V := (c * v.1, c * v.2.1, c * v.2.2)

/-- The traversability classification enum of the map generator. -/
inductive Traversability where
  | UNCLASSIFIED
  | TRAVERSABLE
  | UNKNOWN_OBSTACLE
  | OBSTACLE
deriving DecidableEq

open Traversability

/-- Errors raised by the region stamping operations: the runtime errors
thrown by markUnknownInRadiusAs when the pose is out of the grid and when a
cell access inside the loop is out of the grid. -/
inductive StampError where
  | poseOutOfGrid
  | accessOutOfGrid
deriving DecidableEq

/-- Insert a rational into a sorted list, keeping it sorted. -/
def insertSorted (x : ℚ) : List ℚ → List ℚ
  | [] => [x]
  | y :: ys => if x ≤ y then x :: y :: ys else y :: insertSorted x ys

/-- Insertion sort for lists of rationals. -/
def sortQ : List ℚ → List ℚ
  | [] => []
  | x :: xs => insertSorted x (sortQ xs)

/-- Median of a list of heights: the middle element of the sorted list,
0 for an empty list. -/
def medianOfList (l : List ℚ) : ℚ := (sortQ l).getD (l.length / 2) 0

/-- Modelled from the spec: the ElevationEntry class of the elevation grid is
not among the given sources, only its callers are.  An entry aggregates
height samples; it carries the sample history, the current median, minimum
and maximum, and an interpolated flag.  The C++ sentinel minus DBL_MAX for an
absent maximum is modelled as none. -/
structure ElevationEntry where
  samples : List ℚ
  median : ℚ
  minimum : ℚ
  maximum : Option ℚ
  interpolated : Bool
deriving DecidableEq

/-- The measurement count of an entry. -/
def ElevationEntry.count (e : ElevationEntry) : ℕ := e.samples.length

/-- Modelled from the spec: a freshly created, empty elevation cell. -/
def ElevationEntry.emptyEntry : ElevationEntry :=
  { samples := [], median := 0, minimum := 0, maximum := none, interpolated := false }

/-- Modelled from the spec: addHeightMeasurement appends the height, updates
minimum, maximum and median, clears the interpolated flag and increments the
measurement count. -/
def ElevationEntry.addHeightMeasurement (e : ElevationEntry) (h : ℚ) : ElevationEntry :=
  { samples := e.samples ++ [h]
    median := medianOfList (e.samples ++ [h])
    minimum := if e.samples.isEmpty ∧ e.maximum = none then h else min e.minimum h
    maximum := some (match e.maximum with
      | some m => max m h
      | none => h)
    interpolated := false }

/-- Modelled from the spec: setInterpolatedMeasurement sets the median and
marks the entry interpolated without changing the measurement count. -/
def ElevationEntry.setInterpolatedMeasurement (e : ElevationEntry) (h : ℚ) : ElevationEntry :=
  { e with median := h, interpolated := true }

/-- Modelled from the spec: the sliding grid template is not among the given
sources.  A grid stores its cell counts, the resolution in meters per cell,
the world position of the grid center, and the cell contents as a total
function on integer indices; only indices inside the grid are meaningful. -/
structure Grid (α : Type) where
  width : ℤ
  height : ℤ
  res : ℚ
  position : V
  cells : ℤ × ℤ → α

/-- Bounds check for a pair of cell indices. -/
def Grid.inGrid {α : Type} (g : Grid α) (p : ℤ × ℤ) : Bool :=
  decide (0 ≤ p.1 ∧ p.1 < g.width ∧ 0 ≤ p.2 ∧ p.2 < g.height)

/-- Read a cell. -/
def Grid.getEntry {α : Type} (g : Grid α) (p : ℤ × ℤ) : α := g.cells p

/-- Write a cell. -/
def Grid.setEntry {α : Type} (g : Grid α) (p : ℤ × ℤ) (a : α) : Grid α :=
  { g with cells := fun q => if q = p then a else g.cells q }

/-- Set the world position of the grid. -/
def Grid.setGridPosition {α : Type} (g : Grid α) (v : V) : Grid α := { g with position := v }

/-- Modelled from the spec: the world point to cell index map of the sliding
grid, floor of the offset divided by the resolution plus half the cell
counts; returns none when the index is out of the grid. -/
def Grid.getGridPoint {α : Type} (g : Grid α) (p : V) : Option (ℤ × ℤ) :=
  if g.inGrid (⌊(p.1 - g.position.1) / g.res + (g.width : ℚ) / 2⌋,
      ⌊(p.2.1 - g.position.2.1) / g.res + (g.height : ℚ) / 2⌋) then
    some (⌊(p.1 - g.position.1) / g.res + (g.width : ℚ) / 2⌋,
      ⌊(p.2.1 - g.position.2.1) / g.res + (g.height : ℚ) / 2⌋)
  else none

/-- Rounding to the nearest integer, used by the grid recentering. -/
def roundQ (q : ℚ) : ℤ := ⌊q + 1 / 2⌋

/-- Modelled from the spec: recentering of the sliding grid.  The integer
cell offset is the rounded quotient of the center change by the resolution;
cells whose shifted index is in the old grid keep their contents, the rest
are reset to the empty value, and the position moves by the offset times the
resolution. -/
def Grid.moveGrid {α : Type} (g : Grid α) (emptyVal : α) (newCenter : V) : Grid α :=
  let dx : ℤ := roundQ ((newCenter.1 - g.position.1) / g.res)
  let dy : ℤ := roundQ ((newCenter.2.1 - g.position.2.1) / g.res)
  { g with
    position := (g.position.1 + (dx : ℚ) * g.res, g.position.2.1 + (dy : ℚ) * g.res, g.position.2.2)
    cells := fun q =>
      if g.inGrid (q.1 + dx, q.2 + dy) then g.cells (q.1 + dx, q.2 + dy) else emptyVal }

/-- The elevation grid: a sliding grid of elevation entries. -/
abbrev ElevationGrid : Type := Grid ElevationEntry

/-- The traversability grid: a sliding grid of classification tags. -/
abbrev TravGrid : Type := Grid Traversability

/-- The integers from lo inclusive to hi exclusive, in increasing order. -/
def intRange (lo hi : ℤ) : List ℤ :=
  (List.range (hi - lo).toNat).map (fun (k : ℕ) => lo + (k : ℤ))

/-- All cell indices of a grid, x outer and y inner, matching the iteration
order of the nested loops of the generator. -/
def gridIndices (w h : ℤ) : List (ℤ × ℤ) :=
  (intRange 0 w).flatMap (fun x => (intRange 0 h).map (fun y => (x, y)))

/-- Offsets of the 3 by 3 neighbourhood in the visiting order of the nested
loops of testNeighbourEntry, x outer from -1 to 1, y inner.  The center
offset is included, as in the source. -/
def offsets3x3 : List (ℤ × ℤ) :=
  [(-1, -1), (-1, 0), (-1, 1), (0, -1), (0, 0), (0, 1), (1, -1), (1, 0), (1, 1)]

/-- The first four offsets of the 3 by 3 neighbourhood, before the center. -/
def offsetsPreCenter : List (ℤ × ℤ) := [(-1, -1), (-1, 0), (-1, 1), (0, -1)]

/-- The last four offsets of the 3 by 3 neighbourhood, after the center. -/
def offsetsPostCenter : List (ℤ × ℤ) := [(0, 1), (1, -1), (1, 0), (1, 1)]

/-- The eight neighbour offsets without the center, in the same order. -/
def offsets8 : List (ℤ × ℤ) := offsetsPreCenter ++ offsetsPostCenter

/-- The height testNeighbourEntry uses for a neighbour entry: the median when
the neighbour is measured, none when its maximum is the no-data sentinel so
the neighbour is skipped, and otherwise its minimum. -/
def neighbourHeight (e : ElevationEntry) : Option ℚ :=
  if e.count ≠ 0 then some e.median
  else
    match e.maximum with
    | none => none
    | some _ => some e.minimum

/-- The current height testNeighbourEntry uses for the classified cell: the
maximum for an unmeasured cell, the median otherwise. -/
def curHeightFor (e : ElevationEntry) : ℚ :=
  if e.count = 0 then e.maximum.getD 0 else e.median

/-- The classification value computed by testNeighbourEntry for an in-grid
cell: UNCLASSIFIED for the no-data sentinel; otherwise the current height is
the median of a measured cell or the maximum of an unmeasured one, the
tentative class TRAVERSABLE or UNKNOWN_OBSTACLE accordingly, and the class
becomes OBSTACLE whenever some in-grid cell of the 3 by 3 block has a usable
height differing by more than the step size. -/
def classifyCell (maxStepSize : ℚ) (elGrid : ElevationGrid) (p : ℤ × ℤ) : Traversability :=
  if (elGrid.getEntry p).count = 0 ∧ (elGrid.getEntry p).maximum = none then UNCLASSIFIED
  else
    offsets3x3.foldl (fun cl off =>
      if elGrid.inGrid (p.1 + off.1, p.2 + off.2) then
        match neighbourHeight (elGrid.getEntry (p.1 + off.1, p.2 + off.2)) with
        | none => cl
        | some nh =>
          if |nh - curHeightFor (elGrid.getEntry p)| > maxStepSize then OBSTACLE else cl
      else cl)
      (if (elGrid.getEntry p).count = 0 then UNKNOWN_OBSTACLE else TRAVERSABLE)

/-- testNeighbourEntry: classify one cell of the elevation grid and write the
result into the traversability grid; out-of-grid cells are left alone. -/
def testNeighbourEntry (maxStepSize : ℚ) (elGrid : ElevationGrid) (p : ℤ × ℤ)
    (trGrid : TravGrid) : TravGrid :=
  if elGrid.inGrid p then trGrid.setEntry p (classifyCell maxStepSize elGrid p) else trGrid

/-- updateTraversabilityGrid: copy the elevation grid position into the
traversability grid and classify every cell. -/
def updateTraversabilityGrid (maxStepSize : ℚ) (elGrid : ElevationGrid)
    (trGrid : TravGrid) : TravGrid :=
  (gridIndices elGrid.width elGrid.height).foldl
    (fun tr p => testNeighbourEntry maxStepSize elGrid p tr)
    (trGrid.setGridPosition elGrid.position)

/-- Does one of the three cells of the row at vertical offset dy around p
carry a measurement, as tested by the first loop of
doConservativeInterpolation. -/
def rowMeasured (source : ElevationGrid) (p : ℤ × ℤ) (dy : ℤ) : Bool :=
  [(-1 : ℤ), 0, 1].any (fun x =>
    source.inGrid (p.1 + x, p.2 + dy) &&
      decide ((source.getEntry (p.1 + x, p.2 + dy)).count ≠ 0))

/-- Does one of the three cells of the column at horizontal offset dx around
p carry a measurement. -/
def colMeasured (source : ElevationGrid) (p : ℤ × ℤ) (dx : ℤ) : Bool :=
  [(-1 : ℤ), 0, 1].any (fun y =>
    source.inGrid (p.1 + dx, p.2 + y) &&
      decide ((source.getEntry (p.1 + dx, p.2 + y)).count ≠ 0))

/-- The second test of the column pass exactly as the source computes it: in
every iteration of the loop, ry is assigned p.x() + 1, so the single cell
with index (p.x() - 1, p.x() + 1) is tested three times. -/
def colSecondBuggy (source : ElevationGrid) (p : ℤ × ℤ) : Bool :=
  [(-1 : ℤ), 0, 1].any (fun _ =>
    source.inGrid (p.1 - 1, p.1 + 1) &&
      decide ((source.getEntry (p.1 - 1, p.1 + 1)).count ≠ 0))

/-- The firing condition of doConservativeInterpolation as coded: the rows
above and below each carry a measurement, or, when that fails, the column on
the left carries one and the buggy second column test passes. -/
def interpCondition (source : ElevationGrid) (p : ℤ × ℤ) : Bool :=
  let firstFound := rowMeasured source p (-1)
  let secondFound := rowMeasured source p 1
  if !firstFound || !secondFound then
    colMeasured source p (-1) && colSecondBuggy source p
  else
    firstFound && secondFound

/-- The median of the cell at the given offset around p when that cell is in
the grid and measured, none otherwise: the contribution one iteration of the
interpolation loop adds. -/
def measuredFilter (source : ElevationGrid) (p off : ℤ × ℤ) : Option ℚ :=
  if source.inGrid (p.1 + off.1, p.2 + off.2) &&
      decide ((source.getEntry (p.1 + off.1, p.2 + off.2)).count ≠ 0) then
    some ((source.getEntry (p.1 + off.1, p.2 + off.2)).median)
  else none

/-- The medians of the measured in-grid cells of the 8-neighbourhood of p,
in the visiting order of the interpolation loop. -/
def measuredNeighbourMedians (source : ElevationGrid) (p : ℤ × ℤ) : List ℚ :=
  offsets8.filterMap (measuredFilter source p)

/-- The medians of the measured in-grid cells of the whole 3 by 3 block
around p, the center included, in the visiting order of the loop. -/
def measuredBlockMedians (source : ElevationGrid) (p : ℤ × ℤ) : List ℚ :=
  offsets3x3.filterMap (measuredFilter source p)

/-- The copy step of doConservativeInterpolation: the source cell is written
into the target. -/
def interpTargetBase (source target : ElevationGrid) (p : ℤ × ℤ) : ElevationGrid :=
  target.setEntry p (source.getEntry p)

/-- The accumulation pass of doConservativeInterpolation: every measured
in-grid cell of the 3 by 3 block contributes its median as a height
measurement of the target cell. -/
def interpAddPass (source : ElevationGrid) (p : ℤ × ℤ) (t : ElevationGrid) : ElevationGrid :=
  offsets3x3.foldl (fun t off =>
    match measuredFilter source p off with
    | some m => t.setEntry p ((t.getEntry p).addHeightMeasurement m)
    | none => t) t

/-- The closing step of doConservativeInterpolation: the target cell is
marked interpolated with its own median. -/
def interpFinalize (p : ℤ × ℤ) (t : ElevationGrid) : ElevationGrid :=
  t.setEntry p ((t.getEntry p).setInterpolatedMeasurement ((t.getEntry p).median))

/-- doConservativeInterpolation: copy the source cell into the target; when
the cell is unmeasured and the firing condition holds, add the medians of all
measured in-grid cells of the 3 by 3 block as measurements and mark the
result interpolated with its own median. -/
def doConservativeInterpolation (source target : ElevationGrid) (p : ℤ × ℤ) : ElevationGrid :=
  if source.inGrid p then
    if (source.getEntry p).count ≠ 0 then interpTargetBase source target p
    else if interpCondition source p then
      interpFinalize p (interpAddPass source p (interpTargetBase source target p))
    else interpTargetBase source target p
  else target

/-- smoothElevationGrid: copy the source grid position into the target and
run the conservative interpolation over every cell. -/
def smoothElevationGrid (source target : ElevationGrid) : ElevationGrid :=
  (gridIndices source.width source.height).foldl
    (fun t p => doConservativeInterpolation source t p)
    (target.setGridPosition source.position)

/-- The mutable state of the map generator that the grid passes touch. -/
structure MapState where
  laserGrid : ElevationGrid
  interpolatedGrid : ElevationGrid
  traversabilityGrid : TravGrid
  boundarySize : ℚ
  maxStepSize : ℚ

/-- computeNewMap: smooth the laser grid into the interpolated grid, then
reclassify the traversability grid from the freshly interpolated grid. -/
def computeNewMap (st : MapState) : MapState :=
  let ig := smoothElevationGrid st.laserGrid st.interpolatedGrid
  { st with
    interpolatedGrid := ig
    traversabilityGrid := updateTraversabilityGrid st.maxStepSize ig st.traversabilityGrid }

/-- The consumer dump of getGridDump.  Arrays are modelled as total functions
from the flat index.  In the height array, none models the plus infinity
written for unmeasured cells; in the max array, none models the minus DBL_MAX
sentinel of an absent maximum. -/
structure GridDump where
  heightArr : ℤ → Option ℚ
  maxArr : ℤ → Option ℚ
  interpolatedArr : ℤ → Bool
  traversabilityArr : ℤ → Traversability
  gridPositionX : ℚ
  gridPositionY : ℚ
  gridPositionZ : ℚ

/-- One write of the getGridDump loop: at flat index x times width plus y,
store the interpolated cell median (or the no-measurement marker), its
maximum, its interpolated flag, and the traversability tag. -/
def dumpStep (st : MapState) (gd : GridDump) (p : ℤ × ℤ) : GridDump :=
  let idx : ℤ := p.1 * st.laserGrid.width + p.2
  let e := st.interpolatedGrid.getEntry p
  { gd with
    heightArr := fun i => if i = idx then (if e.count ≠ 0 then some e.median else none)
      else gd.heightArr i
    maxArr := fun i => if i = idx then e.maximum else gd.maxArr i
    interpolatedArr := fun i => if i = idx then e.interpolated else gd.interpolatedArr i
    traversabilityArr := fun i => if i = idx then st.traversabilityGrid.getEntry p
      else gd.traversabilityArr i }

/-- getGridDump: fill the arrays over all laser grid cells, x outer and y
inner, then store the traversability grid position. -/
def getGridDump (st : MapState) (gd : GridDump) : GridDump :=
  let filled := (gridIndices st.laserGrid.width st.laserGrid.height).foldl (dumpStep st) gd
  { filled with
    gridPositionX := st.traversabilityGrid.position.1
    gridPositionY := st.traversabilityGrid.position.2.1
    gridPositionZ := st.traversabilityGrid.position.2.2 }

/-- Conversion of a rational to int as C does it, truncating toward zero;
used for the radius to cell count conversion. -/
def ratTrunc (q : ℚ) : ℤ := if q < 0 then -⌊-q⌋ else ⌊q⌋

/-- The offsets the radius stamp loops over: x and y each from minus
radiusGrid inclusive to radiusGrid exclusive, x outer. -/
def radiusOffsets (radiusGrid : ℤ) : List (ℤ × ℤ) :=
  (intRange (-radiusGrid) radiusGrid).flatMap
    (fun x => (intRange (-radiusGrid) radiusGrid).map (fun y => (x, y)))

/-- Is the offset skipped by the circle test of the radius stamp?  The source
compares the square root of the squared offsets with the radius; over the
nonnegative reachable values this equals comparing the squares. -/
def radiusSkip (res radius : ℚ) (off : ℤ × ℤ) : Bool :=
  decide (((off.1 : ℚ) * res) ^ 2 + ((off.2 : ℚ) * res) ^ 2 > radius ^ 2)

/-- The marking action of the radius stamp on one in-circle cell: overwrite
an UNCLASSIFIED or UNKNOWN_OBSTACLE tag with the given class, and when the
class is TRAVERSABLE add the cell's own current median to the laser grid as a
pseudo measurement. -/
def radiusMarkCell (gridp : ℤ × ℤ) (ttype : Traversability) (st : MapState)
    (off : ℤ × ℤ) : MapState :=
  if st.traversabilityGrid.getEntry (gridp.1 + off.1, gridp.2 + off.2) = UNCLASSIFIED ∨
      st.traversabilityGrid.getEntry (gridp.1 + off.1, gridp.2 + off.2) = UNKNOWN_OBSTACLE then
    if ttype = TRAVERSABLE then
      { st with
        traversabilityGrid :=
          st.traversabilityGrid.setEntry (gridp.1 + off.1, gridp.2 + off.2) ttype
        laserGrid := (st.laserGrid.setEntry (gridp.1 + off.1, gridp.2 + off.2)
          ((st.laserGrid.getEntry (gridp.1 + off.1, gridp.2 + off.2)).addHeightMeasurement
            ((st.laserGrid.getEntry (gridp.1 + off.1, gridp.2 + off.2)).median))) }
    else
      { st with
        traversabilityGrid :=
          st.traversabilityGrid.setEntry (gridp.1 + off.1, gridp.2 + off.2) ttype }
  else st

/-- One loop iteration of the radius stamp without the failure case: skipped
offsets leave the state alone, the rest are marked. -/
def radiusMarkStep (gridp : ℤ × ℤ) (radius : ℚ) (ttype : Traversability) (st : MapState)
    (off : ℤ × ℤ) : MapState :=
  if radiusSkip st.traversabilityGrid.res radius off then st
  else radiusMarkCell gridp ttype st off

/-- One loop iteration of the radius stamp: skip cells outside the circle,
raise the access error, carrying the partially mutated state, when the target
cell is out of the grid, and otherwise mark. -/
def radiusStepM (gridp : ℤ × ℤ) (radius : ℚ) (ttype : Traversability) (st : MapState)
    (off : ℤ × ℤ) : Except (StampError × MapState) MapState :=
  if radiusSkip st.traversabilityGrid.res radius off then pure st
  else if st.traversabilityGrid.inGrid (gridp.1 + off.1, gridp.2 + off.2) then
    pure (radiusMarkCell gridp ttype st off)
  else Except.error (StampError.accessOutOfGrid, st)

/-- markUnknownInRadiusAs: fail with the pose error when the pose is not in
the traversability grid; otherwise iterate over the square of cell offsets
determined by the truncated radius over resolution, skipping offsets outside
the circle, failing with the access error on out-of-grid cells, and marking
the rest.  The error carries the state mutated so far, as the C++ exception
leaves the object partially updated. -/
def markUnknownInRadiusAs (st : MapState) (posePosition : V) (radius : ℚ)
    (ttype : Traversability) : Except (StampError × MapState) MapState :=
  match st.traversabilityGrid.getGridPoint posePosition with
  | none => Except.error (StampError.poseOutOfGrid, st)
  | some gridp =>
    (radiusOffsets (ratTrunc (radius / st.traversabilityGrid.res))).foldlM
      (radiusStepM gridp radius ttype) st

/-- Does the radius stamp loop fail at this offset: the offset passes the
circle test and the target cell is out of the grid. -/
def radiusFails (st : MapState) (gridp : ℤ × ℤ) (radius : ℚ) (off : ℤ × ℤ) : Prop :=
  radiusSkip st.traversabilityGrid.res radius off = false ∧
    st.traversabilityGrid.inGrid (gridp.1 + off.1, gridp.2 + off.2) = false

/-- The sample values of one for loop of the rectangle stamp: from lo in
steps of 0.03 while at most hi. -/
def samplePoints (lo hi step : ℚ) : List ℚ :=
  if hi < lo then []
  else (List.range (⌊(hi - lo) / step⌋.toNat + 1)).map (fun (k : ℕ) => lo + (k : ℚ) * step)

/-- The sample pairs of the two nested loops of the rectangle stamp, x outer
from minus half the width to half the width, y inner from minus half the
height to half the height plus the forward offset, both in steps of 0.03. -/
def rectSamples (width height forwardOffset : ℚ) : List (ℚ × ℚ) :=
  (samplePoints (-(width / 2)) (width / 2) (3 / 100)).flatMap (fun x =>
    (samplePoints (-(height / 2)) (height / 2 + forwardOffset) (3 / 100)).map (fun y => (x, y)))

/-- One iteration of the rectangle stamp: rotate the sample into the world,
look its cell up in the laser grid, silently skip out-of-grid samples, and on
an UNCLASSIFIED or UNKNOWN_OBSTACLE cell write the class, seeding a height 0
measurement when upgrading an unmeasured cell to TRAVERSABLE.  The rotation
by the pose heading about the world z axis is an Eigen AngleAxis and is
passed as a function. -/
def rectStep (rot : V → V) (posePosition : V) (ttype : Traversability) (st : MapState)
    (q : ℚ × ℚ) : MapState :=
  match st.laserGrid.getGridPoint (addV posePosition (rot (q.1, q.2, 0))) with
  | some pg =>
    if st.traversabilityGrid.getEntry pg = UNCLASSIFIED ∨
        st.traversabilityGrid.getEntry pg = UNKNOWN_OBSTACLE then
      if ttype = TRAVERSABLE then
        if (st.laserGrid.getEntry pg).count = 0 then
          { st with
            traversabilityGrid := st.traversabilityGrid.setEntry pg ttype
            laserGrid := (st.laserGrid.setEntry pg
              ((st.laserGrid.getEntry pg).addHeightMeasurement 0)) }
        else { st with traversabilityGrid := st.traversabilityGrid.setEntry pg ttype }
      else { st with traversabilityGrid := st.traversabilityGrid.setEntry pg ttype }
    else st
  | none => st

/-- markUnknownInRectangeAs: run the rectangle stamp over all sample pairs.
The call never fails; out-of-grid samples only print a message. -/
def markUnknownInRectangeAs (rot : V → V) (st : MapState) (posePosition : V)
    (width height forwardOffset : ℚ) (ttype : Traversability) : MapState :=
  (rectSamples width height forwardOffset).foldl (rectStep rot posePosition ttype) st

/-- Does some sample of the rectangle stamp land in cell c of the grid. -/
def rectHitsCell (rot : V → V) (g : ElevationGrid) (posePosition : V)
    (width height forwardOffset : ℚ) (c : ℤ × ℤ) : Bool :=
  (rectSamples width height forwardOffset).any (fun q =>
    decide (g.getGridPoint (addV posePosition (rot (q.1, q.2, 0))) = some c))

/-- The sample pairs of the rectangle the claim describes: a width by height
rectangle translated forward by the offset, sampled on the same 0.03 lattice. -/
def specRectTranslatedSamples (width height forwardOffset : ℚ) : List (ℚ × ℚ) :=
  (samplePoints (-(width / 2)) (width / 2) (3 / 100)).flatMap (fun x =>
    (samplePoints (-(height / 2) + forwardOffset) (height / 2 + forwardOffset)
      (3 / 100)).map (fun y => (x, y)))

/-- External geometry interface.  Transforms and laser scans are opaque
types of the Eigen and base libraries; the operations the generator calls on
them are passed as functions.  laserYAngleDeg models, in degrees, the arccos
of the dot product of the two laser frame Y axes mapped to the odometry
frame, so the five degree threshold of the source becomes the literal 5. -/
structure ExtGeom (T LS : Type) where
  compose : T → T → T
  inverse : T → T
  translation : T → V
  laserYAngleDeg : T → T → ℚ
  convertScanToPointCloud : LS → T → List V
  numRanges : LS → ℕ
  getPointFromScanBeam : LS → ℕ → Option V
  applyTransform : T → V → V

/-- Does an axis-aligned box, given by its min and max corners, contain the
point; the Eigen AlignedBox contains test, componentwise. -/
def boxContains (b : V × V) (p : V) : Bool :=
  decide (b.1.1 ≤ p.1 ∧ p.1 ≤ b.2.1 ∧ b.1.2.1 ≤ p.2.1 ∧ p.2.1 ≤ b.2.2.1 ∧
    b.1.2.2 ≤ p.2.2 ∧ p.2.2 ≤ b.2.2.2)

/-- The two wheel mask boxes built in addLaserScan, with the exact constants
of the source. -/
def maskedAreasDefault : List (V × V) :=
  [((0.285, -0.215, -0.18), (0.285 - 0.06, 0.215, 0.25)),
   ((-0.285, -0.215, -0.18), (-0.285 + 0.06, 0.215, 0.25))]

/-- filterLaserScan: convert the scan to points in the filter frame, drop
beams inside a masked box, and map the surviving valid beams through the
result frame. -/
def filterLaserScan {T LS : Type} (G : ExtGeom T LS) (ls : LS) (filterFrame resultFrame : T)
    (maskedAreas : List (V × V)) : List V :=
  let pointsFilterFrame := G.convertScanToPointCloud ls filterFrame
  (List.range (G.numRanges ls)).foldl (fun result i =>
    if maskedAreas.any (fun b => boxContains b (pointsFilterFrame.getD i ((0 : ℚ), (0 : ℚ), (0 : ℚ)))) then
      result
    else
      match G.getPointFromScanBeam ls i with
      | some point => result ++ [G.applyTransform resultFrame point]
      | none => result) []

/-- Squared euclidean norm of a vector.  The source compares the norm with
0.05; over nonnegative values this equals comparing the squared norm with
0.0025. -/
def sqNorm (v : V) : ℚ := v.1 ^ 2 + v.2.1 ^ 2 + v.2.2 ^ 2

/-- Modelled from the spec: ElevationGrid.addLaserScan is not among the given
sources.  Every point whose cell is in the grid contributes its z coordinate
as a height measurement. -/
def addScanPoints (g : ElevationGrid) (pts : List V) : ElevationGrid :=
  pts.foldl (fun g p =>
    match g.getGridPoint p with
    | some idx => g.setEntry idx ((g.getEntry idx).addHeightMeasurement p.2.2)
    | none => g) g

/-- moveGridIfRobotNearBoundary: when the robot position is within the
boundary size of a grid edge, recenter the grid two thirds of the current
displacement ahead of the robot; when the robot is wholly outside the grid,
recenter onto the robot. -/
def moveGridIfRobotNearBoundary (boundarySize : ℚ) (grid : ElevationGrid)
    (robotPosition : V) : ElevationGrid × Bool :=
  let posInGrid := subV robotPosition grid.position
  let w := (grid.width : ℚ) * grid.res / 2
  let h := (grid.height : ℚ) * grid.res / 2
  if |posInGrid.1| > w - boundarySize ∨ |posInGrid.2.1| > h - boundarySize then
    let posInGrid2 := if |posInGrid.1| > w ∨ |posInGrid.2.1| > h then
        ((0 : ℚ), (0 : ℚ), (0 : ℚ)) else posInGrid
    (grid.moveGrid ElevationEntry.emptyEntry (addV robotPosition (scaleV (2 / 3) posInGrid2)),
      true)
  else (grid, false)

/-- The full generator state: the last accepted transforms plus the grids. -/
structure GenState (T : Type) where
  lastBody2Odo : T
  lastLaser2Odo : T
  maps : MapState

/-- addLaserScan: compose the frames, measure the displacement and the laser
axis angle change against the stored transforms, recenter the laser grid if
the robot is near its boundary, filter the scan and add the surviving points,
and finally either return false, leaving the stored transforms alone, when
both motions are below their thresholds, or update the stored transforms and
return true.  The 0.05 meter displacement test is expressed on the squared
norm, and the five degree angle test on the angle in degrees. -/
def addLaserScan {T LS : Type} (G : ExtGeom T LS) (st : GenState T) (ls : LS)
    (body2Odo laser2Body : T) : GenState T × Bool :=
  if sqNorm (G.translation (G.compose (G.inverse st.lastBody2Odo) body2Odo)) < 1 / 400 ∧
      G.laserYAngleDeg (G.compose body2Odo laser2Body) st.lastLaser2Odo < 5 then
    ({ st with maps := { st.maps with laserGrid := (addScanPoints
        (moveGridIfRobotNearBoundary st.maps.boundarySize st.maps.laserGrid
          (G.translation body2Odo)).1
        (filterLaserScan G ls laser2Body (G.compose body2Odo laser2Body)
          maskedAreasDefault)) } }, false)
  else
    ({ lastBody2Odo := body2Odo
       lastLaser2Odo := (G.compose body2Odo laser2Body)
       maps := { st.maps with laserGrid := (addScanPoints
        (moveGridIfRobotNearBoundary st.maps.boundarySize st.maps.laserGrid
          (G.translation body2Odo)).1
        (filterLaserScan G ls laser2Body (G.compose body2Odo laser2Body)
          maskedAreasDefault)) } }, true)

/-- Does the cell at the given offset trigger the OBSTACLE step test: it is
in the grid, contributes a usable height, and that height differs from the
current height of the classified cell by more than the step size. -/
def stepTrigger (maxStepSize : ℚ) (elGrid : ElevationGrid) (p off : ℤ × ℤ) : Bool :=
  elGrid.inGrid (p.1 + off.1, p.2 + off.2) &&
    (match neighbourHeight (elGrid.getEntry (p.1 + off.1, p.2 + off.2)) with
     | none => false
     | some nh => decide (|nh - curHeightFor (elGrid.getEntry p)| > maxStepSize))

/-- The per-cell classification rule exactly as claim C1 words it: identical
to the coded rule except that the step test ranges over the in-grid
8-neighbours only, the cell itself excluded. -/
def specClassifyCellC1 (maxStepSize : ℚ) (elGrid : ElevationGrid) (p : ℤ × ℤ) : Traversability :=
  if (elGrid.getEntry p).count = 0 ∧ (elGrid.getEntry p).maximum = none then UNCLASSIFIED
  else if offsets8.any (stepTrigger maxStepSize elGrid p) then OBSTACLE
  else if (elGrid.getEntry p).count = 0 then UNKNOWN_OBSTACLE else TRAVERSABLE

/-- The amended per-cell classification rule: as claim C1, but the step test
ranges over all in-grid cells of the 3 by 3 block centered at the cell, the
cell itself included, matching the loop bounds of the source. -/
def specClassifyCellAmended (maxStepSize : ℚ) (elGrid : ElevationGrid)
    (p : ℤ × ℤ) : Traversability :=
  if (elGrid.getEntry p).count = 0 ∧ (elGrid.getEntry p).maximum = none then UNCLASSIFIED
  else if offsets3x3.any (stepTrigger maxStepSize elGrid p) then OBSTACLE
  else if (elGrid.getEntry p).count = 0 then UNKNOWN_OBSTACLE else TRAVERSABLE

/-- The interpolation firing condition exactly as claim C2 words it: a
measured cell in each of the rows above and below, or a measured cell in each
of the columns on the left and on the right. -/
def specInterpCondition (source : ElevationGrid) (p : ℤ × ℤ) : Bool :=
  (rowMeasured source p (-1) && rowMeasured source p 1) ||
    (colMeasured source p (-1) && colMeasured source p 1)

/-- A one-sample entry with the given height, used by concrete scenarios. -/
def mkMeasuredEntry (h : ℚ) : ElevationEntry :=
  { samples := [h], median := h, minimum := h, maximum := some h, interpolated := false }

/-- An elevation grid of the given shape with all cells empty. -/
def emptyElevGrid (w h : ℤ) (res : ℚ) : ElevationGrid :=
  { width := w, height := h, res := res, position := (0, 0, 0),
    cells := fun _ => ElevationEntry.emptyEntry }

/-- A traversability grid of the given shape with all cells UNCLASSIFIED. -/
def constTravGrid (w h : ℤ) (res : ℚ) : TravGrid :=
  { width := w, height := h, res := res, position := (0, 0, 0),
    cells := fun _ => UNCLASSIFIED }

/-- Concrete grid for claim C1: a single cell with no measurements but a
recorded maximum of one and a minimum of zero. -/
def c1Grid : ElevationGrid :=
  { width := 1, height := 1, res := 1, position := (0, 0, 0),
    cells := fun _ =>
      { samples := [], median := 0, minimum := 0, maximum := some 1, interpolated := false } }

/-- Concrete source grid for claim C2: measurements only at cells (0,0) and
(2,1) of a 3 by 3 grid. -/
def c2Source : ElevationGrid :=
  { width := 3, height := 3, res := 1, position := (0, 0, 0),
    cells := fun q => if q = (0, 0) ∨ q = (2, 1) then mkMeasuredEntry 1
      else ElevationEntry.emptyEntry }

/-- Concrete source grid for claim C3: measurements at (1,0) and (1,2) of a
3 by 3 grid, bracketing cell (1,1) vertically. -/
def c3Source : ElevationGrid :=
  { width := 3, height := 3, res := 1, position := (0, 0, 0),
    cells := fun q => if q = (1, 0) ∨ q = (1, 2) then mkMeasuredEntry 1
      else ElevationEntry.emptyEntry }

/-- Concrete map state for claim C5: empty 4 by 4 grids at resolution 0.03. -/
def c5State : MapState :=
  { laserGrid := emptyElevGrid 4 4 (3 / 100)
    interpolatedGrid := emptyElevGrid 4 4 (3 / 100)
    traversabilityGrid := constTravGrid 4 4 (3 / 100)
    boundarySize := 0
    maxStepSize := 1 / 5 }

/-- Concrete map state for claim C6: empty 4 by 4 grids at resolution 1. -/
def c6State : MapState :=
  { laserGrid := emptyElevGrid 4 4 1
    interpolatedGrid := emptyElevGrid 4 4 1
    traversabilityGrid := constTravGrid 4 4 1
    boundarySize := 0
    maxStepSize := 1 / 5 }

/-- Concrete measured 1 by 1 grid for the witness of claim C8. -/
def c8Grid : ElevationGrid :=
  { width := 1, height := 1, res := 1, position := (0, 0, 0),
    cells := fun _ => mkMeasuredEntry 1 }

/-- Concrete map state for claim C10: empty 2 by 3 grids at resolution 1. -/
def c10State : MapState :=
  { laserGrid := emptyElevGrid 2 3 1
    interpolatedGrid := emptyElevGrid 2 3 1
    traversabilityGrid := constTravGrid 2 3 1
    boundarySize := 0
    maxStepSize := 1 / 5 }

/-- Concrete map state for the witness of claim C7: one-cell grids with a
measured interpolated cell of height two. -/
def c7State : MapState :=
  { laserGrid := emptyElevGrid 1 1 1
    interpolatedGrid :=
      { width := 1, height := 1, res := 1, position := (0, 0, 0),
        cells := fun _ => mkMeasuredEntry 2 }
    traversabilityGrid := constTravGrid 1 1 1
    boundarySize := 0
    maxStepSize := 1 / 5 }

/-- An all-empty grid dump to fill. -/
def gd0 : GridDump :=
  { heightArr := fun _ => none
    maxArr := fun _ => none
    interpolatedArr := fun _ => false
    traversabilityArr := fun _ => UNCLASSIFIED
    gridPositionX := 0
    gridPositionY := 0
    gridPositionZ := 0 }

theorem Grid.getEntry_setEntry {α : Type} (g : Grid α) (p q : ℤ × ℤ) (a : α) :
    (g.setEntry p a).getEntry q = if q = p then a else g.getEntry q := rfl

@[simp] theorem Grid.getEntry_setEntry_self {α : Type} (g : Grid α) (p : ℤ × ℤ) (a : α) :
    (g.setEntry p a).getEntry p = a := by simp [Grid.getEntry_setEntry]

theorem Grid.getEntry_setEntry_ne {α : Type} (g : Grid α) {p q : ℤ × ℤ} (a : α)
    (h : q ≠ p) : (g.setEntry p a).getEntry q = g.getEntry q := by
  simp [Grid.getEntry_setEntry, h]

@[simp] theorem Grid.width_setEntry {α : Type} (g : Grid α) (p : ℤ × ℤ) (a : α) :
    (g.setEntry p a).width = g.width := rfl

@[simp] theorem Grid.height_setEntry {α : Type} (g : Grid α) (p : ℤ × ℤ) (a : α) :
    (g.setEntry p a).height = g.height := rfl

@[simp] theorem Grid.res_setEntry {α : Type} (g : Grid α) (p : ℤ × ℤ) (a : α) :
    (g.setEntry p a).res = g.res := rfl

@[simp] theorem Grid.position_setEntry {α : Type} (g : Grid α) (p : ℤ × ℤ) (a : α) :
    (g.setEntry p a).position = g.position := rfl

@[simp] theorem Grid.inGrid_setEntry {α : Type} (g : Grid α) (p q : ℤ × ℤ) (a : α) :
    (g.setEntry p a).inGrid q = g.inGrid q := rfl

@[simp] theorem Grid.getGridPoint_setEntry {α : Type} (g : Grid α) (p : ℤ × ℤ) (a : α)
    (v : V) : (g.setEntry p a).getGridPoint v = g.getGridPoint v := rfl

@[simp] theorem Grid.getEntry_setGridPosition {α : Type} (g : Grid α) (v : V) (p : ℤ × ℤ) :
    (g.setGridPosition v).getEntry p = g.getEntry p := rfl

@[simp] theorem Grid.position_setGridPosition {α : Type} (g : Grid α) (v : V) :
    (g.setGridPosition v).position = v := rfl

theorem Grid.inGrid_iff {α : Type} (g : Grid α) (p : ℤ × ℤ) :
    g.inGrid p = true ↔ 0 ≤ p.1 ∧ p.1 < g.width ∧ 0 ≤ p.2 ∧ p.2 < g.height := by
  simp [Grid.inGrid]

theorem mem_intRange {lo hi k : ℤ} : k ∈ intRange lo hi ↔ lo ≤ k ∧ k < hi := by
  unfold intRange
  rw [List.mem_map]
  constructor
  · rintro ⟨a, ha, rfl⟩
    rw [List.mem_range] at ha
    omega
  · rintro ⟨h1, h2⟩
    refine ⟨(k - lo).toNat, ?_, ?_⟩
    · rw [List.mem_range]
      omega
    · omega

theorem mem_gridIndices {w h : ℤ} {p : ℤ × ℤ} :
    p ∈ gridIndices w h ↔ 0 ≤ p.1 ∧ p.1 < w ∧ 0 ≤ p.2 ∧ p.2 < h := by
  simp only [gridIndices, List.mem_flatMap, List.mem_map, mem_intRange]
  constructor
  · rintro ⟨x, hx, y, hy, heq⟩
    rw [← heq]
    exact ⟨hx.1, hx.2, hy.1, hy.2⟩
  · rintro ⟨h1, h2, h3, h4⟩
    exact ⟨p.1, ⟨h1, h2⟩, p.2, ⟨h3, h4⟩, rfl⟩

theorem foldl_step_eq_any (l : List (ℤ × ℤ)) (P : ℤ × ℤ → Bool) (cl0 : Traversability) :
    l.foldl (fun cl off => if P off then Traversability.OBSTACLE else cl) cl0 =
      if l.any P then Traversability.OBSTACLE else cl0 := by
  induction l generalizing cl0 with
  | nil => rfl
  | cons a t ih =>
    simp only [List.foldl_cons, List.any_cons]
    by_cases hP : P a = true
    · rw [if_pos hP, ih]
      simp only [hP, Bool.true_or, if_pos]
      simp
    · have hP' : P a = false := by simpa using hP
      rw [if_neg hP, ih]
      simp only [hP', Bool.false_or]

theorem classify_body_eq (ms : ℚ) (el : ElevationGrid) (p : ℤ × ℤ)
    (cl : Traversability) (off : ℤ × ℤ) :
    (if el.inGrid (p.1 + off.1, p.2 + off.2) then
      match neighbourHeight (el.getEntry (p.1 + off.1, p.2 + off.2)) with
      | none => cl
      | some nh =>
        if |nh - curHeightFor (el.getEntry p)| > ms then Traversability.OBSTACLE else cl
    else cl) =
      if stepTrigger ms el p off then Traversability.OBSTACLE else cl := by
  unfold stepTrigger
  cases hin : el.inGrid (p.1 + off.1, p.2 + off.2) with
  | false => simp
  | true =>
    simp only [if_true, Bool.true_and]
    cases hnb : neighbourHeight (el.getEntry (p.1 + off.1, p.2 + off.2)) with
    | none => simp
    | some nh =>
      by_cases hgt : |nh - curHeightFor (el.getEntry p)| > ms
      · simp [hgt]
      · simp [hgt]

theorem classifyCell_eq_amended (ms : ℚ) (el : ElevationGrid) (p : ℤ × ℤ) :
    classifyCell ms el p = specClassifyCellAmended ms el p := by
  unfold classifyCell specClassifyCellAmended
  by_cases h : (el.getEntry p).count = 0 ∧ (el.getEntry p).maximum = none
  · rw [if_pos h, if_pos h]
  · rw [if_neg h, if_neg h,
      List.foldl_ext _ _ _ (fun cl off _ => classify_body_eq ms el p cl off),
      foldl_step_eq_any]

theorem getEntry_testNeighbourEntry (ms : ℚ) (el : ElevationGrid) (q p : ℤ × ℤ)
    (tr : TravGrid) :
    (testNeighbourEntry ms el q tr).getEntry p =
      if el.inGrid q = true ∧ p = q then classifyCell ms el q else tr.getEntry p := by
  unfold testNeighbourEntry
  cases h : el.inGrid q with
  | true => simp [h, Grid.getEntry_setEntry]
  | false => simp [h]

theorem getEntry_foldTest_not_mem (ms : ℚ) (el : ElevationGrid) (l : List (ℤ × ℤ))
    (tr : TravGrid) (p : ℤ × ℤ) (hp : p ∉ l) :
    (l.foldl (fun t q => testNeighbourEntry ms el q t) tr).getEntry p = tr.getEntry p := by
  induction l generalizing tr with
  | nil => rfl
  | cons a t ih =>
    simp only [List.foldl_cons]
    rw [ih _ (fun h => hp (List.mem_cons_of_mem a h)), getEntry_testNeighbourEntry]
    rw [if_neg]
    rintro ⟨-, rfl⟩
    exact hp (List.mem_cons_self _ _)

theorem getEntry_foldTest_mem (ms : ℚ) (el : ElevationGrid) (l : List (ℤ × ℤ))
    (tr : TravGrid) (p : ℤ × ℤ) (hp : p ∈ l) (hin : el.inGrid p = true) :
    (l.foldl (fun t q => testNeighbourEntry ms el q t) tr).getEntry p =
      classifyCell ms el p := by
  induction l generalizing tr with
  | nil => exact absurd hp (List.not_mem_nil p)
  | cons a t ih =>
    simp only [List.foldl_cons]
    by_cases hmem : p ∈ t
    · exact ih _ hmem
    · have hpa : p = a := by
        rcases List.mem_cons.mp hp with h | h
        · exact h
        · exact absurd h hmem
      subst hpa
      rw [getEntry_foldTest_not_mem ms el t _ p hmem, getEntry_testNeighbourEntry,
        if_pos ⟨hin, rfl⟩]

theorem getEntry_updateTraversabilityGrid (ms : ℚ) (el : ElevationGrid) (tr : TravGrid)
    (p : ℤ × ℤ) :
    (updateTraversabilityGrid ms el tr).getEntry p =
      if el.inGrid p = true then classifyCell ms el p else tr.getEntry p := by
  unfold updateTraversabilityGrid
  by_cases h : el.inGrid p = true
  · rw [if_pos h, getEntry_foldTest_mem]
    · exact mem_gridIndices.mpr ((Grid.inGrid_iff el p).mp h)
    · exact h
  · rw [if_neg h, getEntry_foldTest_not_mem, Grid.getEntry_setGridPosition]
    intro hmem
    exact h ((Grid.inGrid_iff el p).mpr (mem_gridIndices.mp hmem))

/-- Claim C1, counterexample.  On a one-cell grid whose cell has no
measurements, maximum one and minimum zero, with the default step size 0.2,
the coded classification compares the cell against itself, sees the step from
its minimum to its maximum and returns OBSTACLE, while the per-cell rule of
the claim, whose step test ranges over the 8 neighbours only, returns
UNKNOWN_OBSTACLE. -/
theorem C1_counterexample :
    (updateTraversabilityGrid (1 / 5) c1Grid (constTravGrid 1 1 1)).getEntry (0, 0) =
      Traversability.OBSTACLE ∧
    specClassifyCellC1 (1 / 5) c1Grid (0, 0) = Traversability.UNKNOWN_OBSTACLE := by
  constructor
  · rw [getEntry_updateTraversabilityGrid, if_pos (by decide)]
    unfold classifyCell
    simp only [c1Grid, Grid.getEntry, offsets3x3, List.foldl_cons, List.foldl_nil]
    norm_num [Grid.inGrid, neighbourHeight, ElevationEntry.count, curHeightFor]
    intro h
    exact Option.noConfusion h
  · unfold specClassifyCellC1
    simp only [c1Grid, Grid.getEntry, offsets8, offsetsPreCenter, offsetsPostCenter,
      List.any_cons, List.any_nil]
    norm_num [Grid.inGrid, stepTrigger, neighbourHeight, ElevationEntry.count, curHeightFor]
    intro h
    exact Option.noConfusion h

/-- Claim C1, amended.  For every cell, the reclassification pass computes
exactly the claimed per-cell rule, except that the step test ranges over all
in-grid cells of the 3 by 3 block centered at the cell, the cell itself
included; cells outside the elevation grid keep their previous tag. -/
theorem C1_classification_rule (ms : ℚ) (el : ElevationGrid) (tr : TravGrid) (p : ℤ × ℤ) :
    (updateTraversabilityGrid ms el tr).getEntry p =
      if el.inGrid p = true then specClassifyCellAmended ms el p else tr.getEntry p := by
  rw [getEntry_updateTraversabilityGrid, classifyCell_eq_amended]

/-- Claim C8.  After reclassification, every in-grid cell whose elevation
entry carries at least one measurement is classified TRAVERSABLE or OBSTACLE,
never UNCLASSIFIED and never UNKNOWN_OBSTACLE. -/
theorem C8_measured_cell_classified (ms : ℚ) (el : ElevationGrid) (tr : TravGrid)
    (p : ℤ × ℤ) (hin : el.inGrid p = true) (hc : (el.getEntry p).count ≠ 0) :
    (updateTraversabilityGrid ms el tr).getEntry p = Traversability.TRAVERSABLE ∨
      (updateTraversabilityGrid ms el tr).getEntry p = Traversability.OBSTACLE := by
  rw [getEntry_updateTraversabilityGrid, if_pos hin, classifyCell_eq_amended]
  unfold specClassifyCellAmended
  rw [if_neg (fun h => hc h.1), if_neg hc]
  split
  · right; rfl
  · left; rfl

/-- Claim C8, witness: a measured one-cell grid is classified, and the result
is TRAVERSABLE or OBSTACLE. -/
theorem C8_witness :
    c8Grid.inGrid (0, 0) = true ∧ (c8Grid.getEntry (0, 0)).count ≠ 0 ∧
      ((updateTraversabilityGrid (1 / 5) c8Grid (constTravGrid 1 1 1)).getEntry (0, 0) =
          Traversability.TRAVERSABLE ∨
        (updateTraversabilityGrid (1 / 5) c8Grid (constTravGrid 1 1 1)).getEntry (0, 0) =
          Traversability.OBSTACLE) :=
  ⟨by decide, by decide,
    C8_measured_cell_classified (1 / 5) c8Grid (constTravGrid 1 1 1) (0, 0)
      (by decide) (by decide)⟩

theorem position_foldl {α β : Type} (f : Grid α → β → Grid α) (l : List β) (t : Grid α)
    (hf : ∀ g b, (f g b).position = g.position) : (l.foldl f t).position = t.position := by
  induction l generalizing t with
  | nil => rfl
  | cons a r ih => rw [List.foldl_cons, ih, hf]

theorem position_interpTargetBase (source target : ElevationGrid) (p : ℤ × ℤ) :
    (interpTargetBase source target p).position = target.position := rfl

theorem position_interpAddPass (source : ElevationGrid) (p : ℤ × ℤ) (t : ElevationGrid) :
    (interpAddPass source p t).position = t.position := by
  unfold interpAddPass
  refine position_foldl _ _ _ (fun g b => ?_)
  cases h : measuredFilter source p b with
  | some m => simp [h]
  | none => simp [h]

theorem position_interpFinalize (p : ℤ × ℤ) (t : ElevationGrid) :
    (interpFinalize p t).position = t.position := rfl

theorem position_doConservativeInterpolation (source target : ElevationGrid) (p : ℤ × ℤ) :
    (doConservativeInterpolation source target p).position = target.position := by
  unfold doConservativeInterpolation
  split
  · split
    · rfl
    · split
      · rw [position_interpFinalize, position_interpAddPass, position_interpTargetBase]
      · rfl
  · rfl

theorem position_smoothElevationGrid (source target : ElevationGrid) :
    (smoothElevationGrid source target).position = source.position := by
  unfold smoothElevationGrid
  rw [position_foldl _ _ _ (fun g b => position_doConservativeInterpolation source g b)]
  exact Grid.position_setGridPosition target source.position

theorem position_testNeighbourEntry (ms : ℚ) (el : ElevationGrid) (q : ℤ × ℤ)
    (tr : TravGrid) : (testNeighbourEntry ms el q tr).position = tr.position := by
  unfold testNeighbourEntry
  split
  · rfl
  · rfl

theorem position_updateTraversabilityGrid (ms : ℚ) (el : ElevationGrid) (tr : TravGrid) :
    (updateTraversabilityGrid ms el tr).position = el.position := by
  unfold updateTraversabilityGrid
  rw [position_foldl _ _ _ (fun g b => position_testNeighbourEntry ms el b g)]
  exact Grid.position_setGridPosition tr el.position

/-- Claim C9.  After computeNewMap, the interpolated grid and the
traversability grid carry the same world position as the laser grid: each
derivation pass copies the source grid position before writing cells, and no
cell write changes it. -/
theorem C9_grid_positions (st : MapState) :
    (computeNewMap st).interpolatedGrid.position = st.laserGrid.position ∧
      (computeNewMap st).traversabilityGrid.position = st.laserGrid.position := by
  constructor
  · exact position_smoothElevationGrid st.laserGrid st.interpolatedGrid
  · rw [show (computeNewMap st).traversabilityGrid = updateTraversabilityGrid st.maxStepSize
        (smoothElevationGrid st.laserGrid st.interpolatedGrid) st.traversabilityGrid from rfl,
      position_updateTraversabilityGrid, position_smoothElevationGrid]

theorem getEntry_foldl_addStep (source : ElevationGrid) (p : ℤ × ℤ) :
    ∀ (l : List (ℤ × ℤ)) (t : ElevationGrid),
      ((l.foldl (fun t off =>
        match measuredFilter source p off with
        | some m => t.setEntry p ((t.getEntry p).addHeightMeasurement m)
        | none => t) t).getEntry p) =
      (l.filterMap (measuredFilter source p)).foldl
        (fun e h => e.addHeightMeasurement h) (t.getEntry p) := by
  intro l
  induction l with
  | nil => intro t; rfl
  | cons a r ih =>
    intro t
    rw [List.foldl_cons, List.filterMap_cons]
    cases h : measuredFilter source p a with
    | some m =>
      simp only [h, List.foldl_cons]
      rw [ih]
      simp
    | none =>
      simp only [h]
      rw [ih]

theorem getEntry_interpAddPass (source : ElevationGrid) (p : ℤ × ℤ) (t : ElevationGrid) :
    (interpAddPass source p t).getEntry p =
      (measuredBlockMedians source p).foldl
        (fun e h => e.addHeightMeasurement h) (t.getEntry p) :=
  getEntry_foldl_addStep source p offsets3x3 t

theorem samples_foldl_add :
    ∀ (hs : List ℚ) (e : ElevationEntry),
      (hs.foldl (fun e h => e.addHeightMeasurement h) e).samples = e.samples ++ hs := by
  intro hs
  induction hs with
  | nil => intro e; simp
  | cons h t ih =>
    intro e
    rw [List.foldl_cons, ih]
    show (e.samples ++ [h]) ++ t = e.samples ++ h :: t
    rw [List.append_assoc, List.singleton_append]

theorem median_foldl_add :
    ∀ (hs : List ℚ) (e : ElevationEntry), hs ≠ [] →
      (hs.foldl (fun e h => e.addHeightMeasurement h) e).median =
        medianOfList (e.samples ++ hs) := by
  intro hs
  induction hs with
  | nil => intro e he; exact absurd rfl he
  | cons h t ih =>
    intro e _
    by_cases ht : t = []
    · subst ht
      rfl
    · rw [List.foldl_cons, ih _ ht]
      show medianOfList ((e.samples ++ [h]) ++ t) = medianOfList (e.samples ++ h :: t)
      rw [List.append_assoc, List.singleton_append]

theorem measuredFilter_center (source : ElevationGrid) (p : ℤ × ℤ)
    (hc : (source.getEntry p).count = 0) : measuredFilter source p (0, 0) = none := by
  unfold measuredFilter
  rw [if_neg]
  simp [hc]

theorem measuredBlockMedians_eq (source : ElevationGrid) (p : ℤ × ℤ)
    (hc : (source.getEntry p).count = 0) :
    measuredBlockMedians source p = measuredNeighbourMedians source p := by
  unfold measuredBlockMedians measuredNeighbourMedians
  rw [show offsets3x3 = offsetsPreCenter ++ ((0, 0) :: offsetsPostCenter) from rfl,
    show offsets8 = offsetsPreCenter ++ offsetsPostCenter from rfl,
    List.filterMap_append, List.filterMap_append, List.filterMap_cons,
    measuredFilter_center source p hc]

theorem fires_medians_ne_nil (source : ElevationGrid) (p : ℤ × ℤ)
    (hfire : interpCondition source p = true) :
    measuredNeighbourMedians source p ≠ [] := by
  intro hnil
  unfold measuredNeighbourMedians at hnil
  rw [List.filterMap_eq_nil_iff] at hnil
  unfold interpCondition at hfire
  by_cases hrows : (!rowMeasured source p (-1) || !rowMeasured source p 1) = true
  · rw [if_pos hrows] at hfire
    have h1 : colMeasured source p (-1) = true := ((Bool.and_eq_true _ _).mp hfire).1
    unfold colMeasured at h1
    rw [List.any_eq_true] at h1
    obtain ⟨y, hy, hcond⟩ := h1
    have hymem : y = -1 ∨ y = 0 ∨ y = 1 := by simpa using hy
    have hoff : ((-1 : ℤ), y) ∈ offsets8 := by
      rcases hymem with rfl | rfl | rfl <;> decide
    have := hnil _ hoff
    unfold measuredFilter at this
    rw [if_pos hcond] at this
    exact Option.noConfusion this
  · rw [if_neg hrows] at hfire
    have h1 : rowMeasured source p (-1) = true := ((Bool.and_eq_true _ _).mp hfire).1
    unfold rowMeasured at h1
    rw [List.any_eq_true] at h1
    obtain ⟨x, hx, hcond⟩ := h1
    have hxmem : x = -1 ∨ x = 0 ∨ x = 1 := by simpa using hx
    have hoff : (x, (-1 : ℤ)) ∈ offsets8 := by
      rcases hxmem with rfl | rfl | rfl <;> decide
    have := hnil _ hoff
    unfold measuredFilter at this
    rw [if_pos hcond] at this
    exact Option.noConfusion this

/-- Claim C3.  For every unmeasured in-grid cell on which the interpolation
fires, the resulting cell median is the median of the medians of all measured
in-grid 8-neighbours, and the cell is flagged interpolated. -/
theorem C3_interpolated_median (source target : ElevationGrid) (p : ℤ × ℤ)
    (hin : source.inGrid p = true) (hc : (source.getEntry p).count = 0)
    (hfire : interpCondition source p = true) :
    ((doConservativeInterpolation source target p).getEntry p).median =
      medianOfList (measuredNeighbourMedians source p) ∧
    ((doConservativeInterpolation source target p).getEntry p).interpolated = true := by
  have hsamples : (source.getEntry p).samples = [] := List.length_eq_zero.mp hc
  have hres : doConservativeInterpolation source target p =
      interpFinalize p (interpAddPass source p (interpTargetBase source target p)) := by
    unfold doConservativeInterpolation
    rw [if_pos hin, if_neg (by simp [hc]), if_pos hfire]
  have hentry : (interpAddPass source p (interpTargetBase source target p)).getEntry p =
      (measuredNeighbourMedians source p).foldl
        (fun e h => e.addHeightMeasurement h) (source.getEntry p) := by
    rw [getEntry_interpAddPass, measuredBlockMedians_eq source p hc]
    unfold interpTargetBase
    rw [Grid.getEntry_setEntry_self]
  have hfin : (doConservativeInterpolation source target p).getEntry p =
      ((interpAddPass source p (interpTargetBase source target p)).getEntry p).setInterpolatedMeasurement
        (((interpAddPass source p (interpTargetBase source target p)).getEntry p).median) := by
    rw [hres]
    unfold interpFinalize
    rw [Grid.getEntry_setEntry_self]
  constructor
  · rw [hfin]
    show ((interpAddPass source p (interpTargetBase source target p)).getEntry p).median =
      medianOfList (measuredNeighbourMedians source p)
    rw [hentry, median_foldl_add _ _ (fires_medians_ne_nil source p hfire), hsamples,
      List.nil_append]
  · rw [hfin]
    rfl

/-- Claim C3, witness: on a 3 by 3 grid with unit height measurements above
and below the center, interpolation fires at the center and the theorem
applies. -/
theorem C3_witness :
    c3Source.inGrid (1, 1) = true ∧ (c3Source.getEntry (1, 1)).count = 0 ∧
      interpCondition c3Source (1, 1) = true ∧
      (((doConservativeInterpolation c3Source (emptyElevGrid 3 3 1) (1, 1)).getEntry
          (1, 1)).median = medianOfList (measuredNeighbourMedians c3Source (1, 1)) ∧
        ((doConservativeInterpolation c3Source (emptyElevGrid 3 3 1) (1, 1)).getEntry
          (1, 1)).interpolated = true) :=
  ⟨by decide, by decide, by decide,
    C3_interpolated_median c3Source (emptyElevGrid 3 3 1) (1, 1)
      (by decide) (by decide) (by decide)⟩

/-- Claim C2.  The column case of the conservative interpolation, as the
source codes it, tests the single cell with indices built from two x
coordinates instead of the three cells of the right hand column: on a 3 by 3
grid measured at (0,0) and (2,1), the claimed condition, a measured cell in
each of the two bracketing columns, holds at the center cell, yet the coded
condition is false and the center cell stays unmeasured and uninterpolated,
contradicting the interpolation comment in the source itself. -/
theorem C2_column_check_bug :
    specInterpCondition c2Source (1, 1) = true ∧
    interpCondition c2Source (1, 1) = false ∧
    ((doConservativeInterpolation c2Source (emptyElevGrid 3 3 1) (1, 1)).getEntry
      (1, 1)).interpolated = false ∧
    ((doConservativeInterpolation c2Source (emptyElevGrid 3 3 1) (1, 1)).getEntry
      (1, 1)).count = 0 := by
  refine ⟨by decide, by decide, ?_, ?_⟩
  · decide
  · decide

theorem flat_index_inj {W a b c d : ℤ} (hb0 : 0 ≤ b) (hbW : b < W) (hd0 : 0 ≤ d)
    (hdW : d < W) (h : a * W + b = c * W + d) : a = c ∧ b = d := by
  have hW : 0 < W := lt_of_le_of_lt hb0 hbW
  have hb : (a * W + b) % W = b := by
    rw [add_comm, mul_comm, Int.add_mul_emod_self_left, Int.emod_eq_of_lt hb0 hbW]
  have hd : (c * W + d) % W = d := by
    rw [add_comm, mul_comm, Int.add_mul_emod_self_left, Int.emod_eq_of_lt hd0 hdW]
  have hbd : b = d := by rw [← hb, ← hd, h]
  refine ⟨?_, hbd⟩
  have haw : a * W = c * W := by omega
  exact mul_right_cancel₀ (ne_of_gt hW) haw

theorem dump_foldl_preserve (st : MapState) (l : List (ℤ × ℤ)) (gd : GridDump) (i : ℤ)
    (h : ∀ q ∈ l, q.1 * st.laserGrid.width + q.2 ≠ i) :
    (l.foldl (dumpStep st) gd).heightArr i = gd.heightArr i ∧
    (l.foldl (dumpStep st) gd).maxArr i = gd.maxArr i ∧
    (l.foldl (dumpStep st) gd).interpolatedArr i = gd.interpolatedArr i ∧
    (l.foldl (dumpStep st) gd).traversabilityArr i = gd.traversabilityArr i := by
  induction l generalizing gd with
  | nil => exact ⟨rfl, rfl, rfl, rfl⟩
  | cons a r ih =>
    rw [List.foldl_cons]
    have hne : i ≠ a.1 * st.laserGrid.width + a.2 :=
      fun hh => h a (List.mem_cons_self _ _) hh.symm
    have step : (dumpStep st gd a).heightArr i = gd.heightArr i ∧
        (dumpStep st gd a).maxArr i = gd.maxArr i ∧
        (dumpStep st gd a).interpolatedArr i = gd.interpolatedArr i ∧
        (dumpStep st gd a).traversabilityArr i = gd.traversabilityArr i := by
      unfold dumpStep
      exact ⟨by simp [hne], by simp [hne], by simp [hne], by simp [hne]⟩
    have rest := ih (dumpStep st gd a) (fun q hq => h q (List.mem_cons_of_mem a hq))
    exact ⟨rest.1.trans step.1, rest.2.1.trans step.2.1,
      rest.2.2.1.trans step.2.2.1, rest.2.2.2.trans step.2.2.2⟩

theorem dump_foldl_at (st : MapState) (l : List (ℤ × ℤ)) (gd : GridDump) (p : ℤ × ℤ)
    (hp : p ∈ l)
    (huniq : ∀ q ∈ l, q.1 * st.laserGrid.width + q.2 = p.1 * st.laserGrid.width + p.2 →
      q = p) :
    (l.foldl (dumpStep st) gd).heightArr (p.1 * st.laserGrid.width + p.2) =
      (if (st.interpolatedGrid.getEntry p).count ≠ 0 then
        some (st.interpolatedGrid.getEntry p).median else none) ∧
    (l.foldl (dumpStep st) gd).maxArr (p.1 * st.laserGrid.width + p.2) =
      (st.interpolatedGrid.getEntry p).maximum ∧
    (l.foldl (dumpStep st) gd).interpolatedArr (p.1 * st.laserGrid.width + p.2) =
      (st.interpolatedGrid.getEntry p).interpolated ∧
    (l.foldl (dumpStep st) gd).traversabilityArr (p.1 * st.laserGrid.width + p.2) =
      st.traversabilityGrid.getEntry p := by
  induction l generalizing gd with
  | nil => exact absurd hp (List.not_mem_nil p)
  | cons a r ih =>
    rw [List.foldl_cons]
    by_cases hpr : p ∈ r
    · exact ih _ hpr (fun q hq => huniq q (List.mem_cons_of_mem a hq))
    · have hpa : p = a := by
        rcases List.mem_cons.mp hp with hh | hh
        · exact hh
        · exact absurd hh hpr
      subst hpa
      have hpres := dump_foldl_preserve st r (dumpStep st gd p)
        (p.1 * st.laserGrid.width + p.2)
        (fun q hq hidx => hpr (by rw [huniq q (List.mem_cons_of_mem p hq) hidx] at hq; exact hq))
      have hwrite : (dumpStep st gd p).heightArr (p.1 * st.laserGrid.width + p.2) =
          (if (st.interpolatedGrid.getEntry p).count ≠ 0 then
            some (st.interpolatedGrid.getEntry p).median else none) ∧
          (dumpStep st gd p).maxArr (p.1 * st.laserGrid.width + p.2) =
            (st.interpolatedGrid.getEntry p).maximum ∧
          (dumpStep st gd p).interpolatedArr (p.1 * st.laserGrid.width + p.2) =
            (st.interpolatedGrid.getEntry p).interpolated ∧
          (dumpStep st gd p).traversabilityArr (p.1 * st.laserGrid.width + p.2) =
            st.traversabilityGrid.getEntry p := by
        unfold dumpStep
        exact ⟨by simp, by simp, by simp, by simp⟩
      exact ⟨hpres.1.trans hwrite.1, hpres.2.1.trans hwrite.2.1,
        hpres.2.2.1.trans hwrite.2.2.1, hpres.2.2.2.trans hwrite.2.2.2⟩

/-- Claim C7.  On the square grids the generator works with, getGridDump
stores, for every cell (x,y) at flat index x times width plus y, the
interpolated cell's median when it has measurements and the no-measurement
marker (plus infinity in the source) otherwise, the cell's maximum, its
interpolated flag and its traversability tag. -/
theorem C7_grid_dump (st : MapState) (gd : GridDump) (x y : ℤ)
    (hsq : st.laserGrid.height = st.laserGrid.width)
    (hx0 : 0 ≤ x) (hxw : x < st.laserGrid.width)
    (hy0 : 0 ≤ y) (hyh : y < st.laserGrid.height) :
    (getGridDump st gd).heightArr (x * st.laserGrid.width + y) =
      (if (st.interpolatedGrid.getEntry (x, y)).count ≠ 0 then
        some (st.interpolatedGrid.getEntry (x, y)).median else none) ∧
    (getGridDump st gd).maxArr (x * st.laserGrid.width + y) =
      (st.interpolatedGrid.getEntry (x, y)).maximum ∧
    (getGridDump st gd).interpolatedArr (x * st.laserGrid.width + y) =
      (st.interpolatedGrid.getEntry (x, y)).interpolated ∧
    (getGridDump st gd).traversabilityArr (x * st.laserGrid.width + y) =
      st.traversabilityGrid.getEntry (x, y) := by
  have hmem : ((x, y) : ℤ × ℤ) ∈ gridIndices st.laserGrid.width st.laserGrid.height :=
    mem_gridIndices.mpr ⟨hx0, hxw, hy0, hyh⟩
  have huniq : ∀ q ∈ gridIndices st.laserGrid.width st.laserGrid.height,
      q.1 * st.laserGrid.width + q.2 = x * st.laserGrid.width + y → q = (x, y) := by
    intro q hq hidx
    have hb := mem_gridIndices.mp hq
    have := flat_index_inj (W := st.laserGrid.width) hb.2.2.1 (hsq ▸ hb.2.2.2) hy0
      (hsq ▸ hyh) hidx
    exact Prod.ext this.1 this.2
  have hmain := dump_foldl_at st (gridIndices st.laserGrid.width st.laserGrid.height) gd
    (x, y) hmem huniq
  exact hmain

/-- Claim C7, witness: the one-cell state with a measured interpolated cell
satisfies the square-grid hypothesis and the dump equations. -/
theorem C7_witness :
    c7State.laserGrid.height = c7State.laserGrid.width ∧
    ((getGridDump c7State gd0).heightArr (0 * c7State.laserGrid.width + 0) =
      (if (c7State.interpolatedGrid.getEntry (0, 0)).count ≠ 0 then
        some (c7State.interpolatedGrid.getEntry (0, 0)).median else none) ∧
    (getGridDump c7State gd0).maxArr (0 * c7State.laserGrid.width + 0) =
      (c7State.interpolatedGrid.getEntry (0, 0)).maximum ∧
    (getGridDump c7State gd0).interpolatedArr (0 * c7State.laserGrid.width + 0) =
      (c7State.interpolatedGrid.getEntry (0, 0)).interpolated ∧
    (getGridDump c7State gd0).traversabilityArr (0 * c7State.laserGrid.width + 0) =
      c7State.traversabilityGrid.getEntry (0, 0)) :=
  ⟨by decide,
    C7_grid_dump c7State gd0 0 0 (by decide) (by decide) (by decide) (by decide) (by decide)⟩

theorem rectStep_none (rot : V → V) (posePos : V) (ttype : Traversability)
    (s : MapState) (q : ℚ × ℚ)
    (h : s.laserGrid.getGridPoint (addV posePos (rot (q.1, q.2, 0))) = none) :
    rectStep rot posePos ttype s q = s := by
  unfold rectStep
  rw [h]

theorem rectStep_skip (rot : V → V) (posePos : V) (ttype : Traversability)
    (s : MapState) (q : ℚ × ℚ) (pg : ℤ × ℤ)
    (h : s.laserGrid.getGridPoint (addV posePos (rot (q.1, q.2, 0))) = some pg)
    (hold : ¬(s.traversabilityGrid.getEntry pg = UNCLASSIFIED ∨
      s.traversabilityGrid.getEntry pg = UNKNOWN_OBSTACLE)) :
    rectStep rot posePos ttype s q = s := by
  unfold rectStep
  rw [h]
  dsimp only
  rw [if_neg hold]

theorem rectStep_hit_travGrid (rot : V → V) (posePos : V) (ttype : Traversability)
    (s : MapState) (q : ℚ × ℚ) (pg : ℤ × ℤ)
    (h : s.laserGrid.getGridPoint (addV posePos (rot (q.1, q.2, 0))) = some pg)
    (hold : s.traversabilityGrid.getEntry pg = UNCLASSIFIED ∨
      s.traversabilityGrid.getEntry pg = UNKNOWN_OBSTACLE) :
    (rectStep rot posePos ttype s q).traversabilityGrid =
      s.traversabilityGrid.setEntry pg ttype := by
  unfold rectStep
  rw [h]
  dsimp only
  rw [if_pos hold]
  by_cases htt : ttype = TRAVERSABLE
  · rw [if_pos htt]
    by_cases hcnt : (s.laserGrid.getEntry pg).count = 0
    · rw [if_pos hcnt]
    · rw [if_neg hcnt]
  · rw [if_neg htt]

theorem rectStep_hit_laserGrid (rot : V → V) (posePos : V) (ttype : Traversability)
    (s : MapState) (q : ℚ × ℚ) (pg : ℤ × ℤ)
    (h : s.laserGrid.getGridPoint (addV posePos (rot (q.1, q.2, 0))) = some pg)
    (hold : s.traversabilityGrid.getEntry pg = UNCLASSIFIED ∨
      s.traversabilityGrid.getEntry pg = UNKNOWN_OBSTACLE) :
    (rectStep rot posePos ttype s q).laserGrid =
      if ttype = TRAVERSABLE ∧ (s.laserGrid.getEntry pg).count = 0 then
        s.laserGrid.setEntry pg ((s.laserGrid.getEntry pg).addHeightMeasurement 0)
      else s.laserGrid := by
  unfold rectStep
  rw [h]
  dsimp only
  rw [if_pos hold]
  by_cases htt : ttype = TRAVERSABLE
  · rw [if_pos htt]
    by_cases hcnt : (s.laserGrid.getEntry pg).count = 0
    · rw [if_pos hcnt, if_pos ⟨htt, hcnt⟩]
    · rw [if_neg hcnt, if_neg (fun hh => hcnt hh.2)]
  · rw [if_neg htt, if_neg (fun hh => htt hh.1)]

theorem rectStep_unchanged_interp (rot : V → V) (posePos : V) (ttype : Traversability)
    (s : MapState) (q : ℚ × ℚ) :
    (rectStep rot posePos ttype s q).interpolatedGrid = s.interpolatedGrid := by
  unfold rectStep
  cases hgp : s.laserGrid.getGridPoint (addV posePos (rot (q.1, q.2, 0))) with
  | none => rfl
  | some pg =>
    dsimp only
    by_cases hold : s.traversabilityGrid.getEntry pg = UNCLASSIFIED ∨
        s.traversabilityGrid.getEntry pg = UNKNOWN_OBSTACLE
    · rw [if_pos hold]
      by_cases htt : ttype = TRAVERSABLE
      · rw [if_pos htt]
        by_cases hcnt : (s.laserGrid.getEntry pg).count = 0
        · rw [if_pos hcnt]
        · rw [if_neg hcnt]
      · rw [if_neg htt]
    · rw [if_neg hold]

theorem rectStep_getGridPoint (rot : V → V) (posePos : V) (ttype : Traversability)
    (s : MapState) (q : ℚ × ℚ) (v : V) :
    (rectStep rot posePos ttype s q).laserGrid.getGridPoint v =
      s.laserGrid.getGridPoint v := by
  cases hgp : s.laserGrid.getGridPoint (addV posePos (rot (q.1, q.2, 0))) with
  | none => rw [rectStep_none rot posePos ttype s q hgp]
  | some pg =>
    by_cases hold : s.traversabilityGrid.getEntry pg = UNCLASSIFIED ∨
        s.traversabilityGrid.getEntry pg = UNKNOWN_OBSTACLE
    · rw [rectStep_hit_laserGrid rot posePos ttype s q pg hgp hold]
      by_cases hseed : ttype = TRAVERSABLE ∧ (s.laserGrid.getEntry pg).count = 0
      · rw [if_pos hseed, Grid.getGridPoint_setEntry]
      · rw [if_neg hseed]
    · rw [rectStep_skip rot posePos ttype s q pg hgp hold]

theorem rectStep_trav_getEntry (rot : V → V) (posePos : V) (ttype : Traversability)
    (s : MapState) (q : ℚ × ℚ) (c : ℤ × ℤ) :
    (rectStep rot posePos ttype s q).traversabilityGrid.getEntry c =
      if s.laserGrid.getGridPoint (addV posePos (rot (q.1, q.2, 0))) = some c ∧
          (s.traversabilityGrid.getEntry c = UNCLASSIFIED ∨
            s.traversabilityGrid.getEntry c = UNKNOWN_OBSTACLE) then ttype
      else s.traversabilityGrid.getEntry c := by
  cases hgp : s.laserGrid.getGridPoint (addV posePos (rot (q.1, q.2, 0))) with
  | none =>
    rw [rectStep_none rot posePos ttype s q hgp, if_neg]
    rintro ⟨hh, -⟩
    exact Option.noConfusion hh
  | some pg =>
    by_cases hold : s.traversabilityGrid.getEntry pg = UNCLASSIFIED ∨
        s.traversabilityGrid.getEntry pg = UNKNOWN_OBSTACLE
    · rw [rectStep_hit_travGrid rot posePos ttype s q pg hgp hold,
        Grid.getEntry_setEntry]
      by_cases hpc : c = pg
      · subst hpc
        rw [if_pos rfl, if_pos ⟨rfl, hold⟩]
      · rw [if_neg hpc, if_neg]
        rintro ⟨hh, -⟩
        exact hpc (Option.some.inj hh).symm
    · rw [rectStep_skip rot posePos ttype s q pg hgp hold, if_neg]
      rintro ⟨hh, hu⟩
      exact hold ((Option.some.inj hh) ▸ hu)

theorem rectStep_laser_getEntry (rot : V → V) (posePos : V) (ttype : Traversability)
    (s : MapState) (q : ℚ × ℚ) (c : ℤ × ℤ) :
    (rectStep rot posePos ttype s q).laserGrid.getEntry c =
      if s.laserGrid.getGridPoint (addV posePos (rot (q.1, q.2, 0))) = some c ∧
          (s.traversabilityGrid.getEntry c = UNCLASSIFIED ∨
            s.traversabilityGrid.getEntry c = UNKNOWN_OBSTACLE) ∧
          ttype = TRAVERSABLE ∧ (s.laserGrid.getEntry c).count = 0 then
        (s.laserGrid.getEntry c).addHeightMeasurement 0
      else s.laserGrid.getEntry c := by
  cases hgp : s.laserGrid.getGridPoint (addV posePos (rot (q.1, q.2, 0))) with
  | none =>
    rw [rectStep_none rot posePos ttype s q hgp, if_neg]
    rintro ⟨hh, -⟩
    exact Option.noConfusion hh
  | some pg =>
    by_cases hold : s.traversabilityGrid.getEntry pg = UNCLASSIFIED ∨
        s.traversabilityGrid.getEntry pg = UNKNOWN_OBSTACLE
    · rw [rectStep_hit_laserGrid rot posePos ttype s q pg hgp hold]
      by_cases hseed : ttype = TRAVERSABLE ∧ (s.laserGrid.getEntry pg).count = 0
      · rw [if_pos hseed, Grid.getEntry_setEntry]
        by_cases hpc : c = pg
        · subst hpc
          rw [if_pos rfl, if_pos ⟨rfl, hold, hseed.1, hseed.2⟩]
        · rw [if_neg hpc, if_neg]
          rintro ⟨hh, -⟩
          exact hpc (Option.some.inj hh).symm
      · rw [if_neg hseed, if_neg]
        rintro ⟨hh, -, h3, h4⟩
        exact hseed ⟨h3, (Option.some.inj hh) ▸ h4⟩
    · rw [rectStep_skip rot posePos ttype s q pg hgp hold, if_neg]
      rintro ⟨hh, hu, -⟩
      exact hold ((Option.some.inj hh) ▸ hu)

theorem rect_foldl_char (rot : V → V) (posePos : V) (ttype : Traversability) (c : ℤ × ℤ) :
    ∀ (l : List (ℚ × ℚ)) (s : MapState),
      ((l.foldl (rectStep rot posePos ttype) s).traversabilityGrid.getEntry c =
        if (l.any fun q =>
              decide (s.laserGrid.getGridPoint (addV posePos (rot (q.1, q.2, 0))) =
                some c)) = true ∧
            (s.traversabilityGrid.getEntry c = UNCLASSIFIED ∨
              s.traversabilityGrid.getEntry c = UNKNOWN_OBSTACLE) then ttype
        else s.traversabilityGrid.getEntry c) ∧
      ((l.foldl (rectStep rot posePos ttype) s).laserGrid.getEntry c =
        if (l.any fun q =>
              decide (s.laserGrid.getGridPoint (addV posePos (rot (q.1, q.2, 0))) =
                some c)) = true ∧
            (s.traversabilityGrid.getEntry c = UNCLASSIFIED ∨
              s.traversabilityGrid.getEntry c = UNKNOWN_OBSTACLE) ∧
            ttype = TRAVERSABLE ∧ (s.laserGrid.getEntry c).count = 0 then
          (s.laserGrid.getEntry c).addHeightMeasurement 0
        else s.laserGrid.getEntry c) := by
  intro l
  induction l with
  | nil =>
    intro s
    constructor
    · simp
    · simp
  | cons q t ih =>
    intro s
    rw [List.foldl_cons, List.any_cons]
    have hany : (t.any fun q' =>
        decide ((rectStep rot posePos ttype s q).laserGrid.getGridPoint
          (addV posePos (rot (q'.1, q'.2, 0))) = some c)) =
        (t.any fun q' =>
          decide (s.laserGrid.getGridPoint (addV posePos (rot (q'.1, q'.2, 0))) =
            some c)) :=
      congrArg _ (funext fun q' => by rw [rectStep_getGridPoint])
    have ihc := ih (rectStep rot posePos ttype s q)
    rw [hany] at ihc
    by_cases hq : s.laserGrid.getGridPoint (addV posePos (rot (q.1, q.2, 0))) = some c
    · by_cases hold : s.traversabilityGrid.getEntry c = UNCLASSIFIED ∨
          s.traversabilityGrid.getEntry c = UNKNOWN_OBSTACLE
      · have hT1 : (rectStep rot posePos ttype s q).traversabilityGrid.getEntry c = ttype := by
          rw [rectStep_trav_getEntry, if_pos ⟨hq, hold⟩]
        have hdq : (decide (s.laserGrid.getGridPoint (addV posePos (rot (q.1, q.2, 0))) =
            some c)) = true := by simp [hq]
        constructor
        · rw [ihc.1, hT1, ite_self, if_pos ⟨by rw [hdq, Bool.true_or], hold⟩]
        · rw [ihc.2, hT1]
          by_cases htt : ttype = TRAVERSABLE
          · have hnu : ¬(ttype = UNCLASSIFIED ∨ ttype = UNKNOWN_OBSTACLE) := by
              subst htt
              rintro (hh | hh) <;> exact Traversability.noConfusion hh
            by_cases hcnt : (s.laserGrid.getEntry c).count = 0
            · have hL1 : (rectStep rot posePos ttype s q).laserGrid.getEntry c =
                  (s.laserGrid.getEntry c).addHeightMeasurement 0 := by
                rw [rectStep_laser_getEntry, if_pos ⟨hq, hold, htt, hcnt⟩]
              rw [hL1, if_neg (fun hh => hnu hh.2.1),
                if_pos ⟨by rw [hdq, Bool.true_or], hold, htt, hcnt⟩]
            · have hL1 : (rectStep rot posePos ttype s q).laserGrid.getEntry c =
                  s.laserGrid.getEntry c := by
                rw [rectStep_laser_getEntry, if_neg (fun hh => hcnt hh.2.2.2)]
              rw [hL1, if_neg (fun hh => hnu hh.2.1), if_neg (fun hh => hcnt hh.2.2.2)]
          · have hL1 : (rectStep rot posePos ttype s q).laserGrid.getEntry c =
                s.laserGrid.getEntry c := by
              rw [rectStep_laser_getEntry, if_neg (fun hh => htt hh.2.2.1)]
            rw [hL1, if_neg (fun hh => htt hh.2.2.1), if_neg (fun hh => htt hh.2.2.1)]
      · have hT1 : (rectStep rot posePos ttype s q).traversabilityGrid.getEntry c =
            s.traversabilityGrid.getEntry c := by
          rw [rectStep_trav_getEntry, if_neg (fun hh => hold hh.2)]
        have hL1 : (rectStep rot posePos ttype s q).laserGrid.getEntry c =
            s.laserGrid.getEntry c := by
          rw [rectStep_laser_getEntry, if_neg (fun hh => hold hh.2.1)]
        constructor
        · rw [ihc.1, hT1, if_neg (fun hh => hold hh.2), if_neg (fun hh => hold hh.2)]
        · rw [ihc.2, hT1, hL1, if_neg (fun hh => hold hh.2.1), if_neg (fun hh => hold hh.2.1)]
    · have hT1 : (rectStep rot posePos ttype s q).traversabilityGrid.getEntry c =
          s.traversabilityGrid.getEntry c := by
        rw [rectStep_trav_getEntry, if_neg (fun hh => hq hh.1)]
      have hL1 : (rectStep rot posePos ttype s q).laserGrid.getEntry c =
          s.laserGrid.getEntry c := by
        rw [rectStep_laser_getEntry, if_neg (fun hh => hq hh.1)]
      have hdq : (decide (s.laserGrid.getGridPoint (addV posePos (rot (q.1, q.2, 0))) =
          some c)) = false := by simp [hq]
      constructor
      · rw [ihc.1, hT1, hdq, Bool.false_or]
      · rw [ihc.2, hT1, hL1, hdq, Bool.false_or]

/-- Claim C5, amended.  The rectangle stamp visits the 0.03 spaced sample
points of the rectangle spanning minus half the width to half the width
across, and minus half the height to half the height plus the forward offset
ahead, rotated by the pose heading; a cell hit by some sample that is
currently UNCLASSIFIED or UNKNOWN_OBSTACLE receives the given class, every
other cell is untouched, and the laser cell is seeded with a height zero
measurement exactly when such a hit cell is upgraded to TRAVERSABLE while
unmeasured. -/
theorem C5_rectangle_stamp (rot : V → V) (st : MapState) (posePosition : V)
    (width height forwardOffset : ℚ) (ttype : Traversability) (c : ℤ × ℤ) :
    ((markUnknownInRectangeAs rot st posePosition width height forwardOffset
        ttype).traversabilityGrid.getEntry c =
      if rectHitsCell rot st.laserGrid posePosition width height forwardOffset c = true ∧
          (st.traversabilityGrid.getEntry c = UNCLASSIFIED ∨
            st.traversabilityGrid.getEntry c = UNKNOWN_OBSTACLE) then ttype
      else st.traversabilityGrid.getEntry c) ∧
    ((markUnknownInRectangeAs rot st posePosition width height forwardOffset
        ttype).laserGrid.getEntry c =
      if rectHitsCell rot st.laserGrid posePosition width height forwardOffset c = true ∧
          (st.traversabilityGrid.getEntry c = UNCLASSIFIED ∨
            st.traversabilityGrid.getEntry c = UNKNOWN_OBSTACLE) ∧
          ttype = TRAVERSABLE ∧ (st.laserGrid.getEntry c).count = 0 then
        (st.laserGrid.getEntry c).addHeightMeasurement 0
      else st.laserGrid.getEntry c) := by
  unfold markUnknownInRectangeAs rectHitsCell
  exact rect_foldl_char rot posePosition ttype c (rectSamples width height forwardOffset) st

/-- Claim C5, counterexample.  With a rectangle of width and height zero and
forward offset 0.03, stamped from the origin pose with the identity rotation
of heading zero, the code extends the rectangle forward instead of
translating it: it also visits the sample at the rectangle center and stamps
cell (2,2), while the width by height rectangle translated forward by the
offset, as the claim words it, contains only the sample mapping to cell
(2,3), so under the claim cell (2,2) would keep its UNCLASSIFIED tag. -/
theorem C5_counterexample :
    (markUnknownInRectangeAs (fun v => v) c5State ((0 : ℚ), (0 : ℚ), (0 : ℚ)) 0 0 (3 / 100)
        Traversability.OBSTACLE).traversabilityGrid.getEntry (2, 2) =
      Traversability.OBSTACLE ∧
    (∀ q ∈ specRectTranslatedSamples 0 0 (3 / 100),
      c5State.laserGrid.getGridPoint
        (addV ((0 : ℚ), (0 : ℚ), (0 : ℚ)) ((q.1, q.2, (0 : ℚ)) : V)) ≠ some (2, 2)) ∧
    c5State.traversabilityGrid.getEntry (2, 2) = Traversability.UNCLASSIFIED := by
  have hsamp : rectSamples 0 0 (3 / 100) = [((0 : ℚ), (0 : ℚ)), ((0 : ℚ), 3 / 100)] := by
    unfold rectSamples samplePoints
    rw [if_neg (by norm_num), if_neg (by norm_num)]
    have h1 : (⌊((0 : ℚ) / 2 + 3 / 100 - -(0 / 2)) / (3 / 100)⌋).toNat + 1 = 2 := by norm_num
    have h2 : (⌊((0 : ℚ) / 2 - -(0 / 2)) / (3 / 100)⌋).toNat + 1 = 1 := by norm_num
    rw [h1, h2, show List.range 2 = [0, 1] from rfl, show List.range 1 = [0] from rfl]
    simp
  have hgp1 : c5State.laserGrid.getGridPoint
      (addV ((0 : ℚ), (0 : ℚ), (0 : ℚ)) ((0 : ℚ), (0 : ℚ), (0 : ℚ))) = some (2, 2) := by
    norm_num [Grid.getGridPoint, Grid.inGrid, c5State, emptyElevGrid, addV]
  have hgp2 : c5State.laserGrid.getGridPoint
      (addV ((0 : ℚ), (0 : ℚ), (0 : ℚ)) ((0 : ℚ), (3 / 100 : ℚ), (0 : ℚ))) = some (2, 3) := by
    norm_num [Grid.getGridPoint, Grid.inGrid, c5State, emptyElevGrid, addV]
  refine ⟨?_, ?_, rfl⟩
  · have hchar := (rect_foldl_char (fun v => v) ((0 : ℚ), (0 : ℚ), (0 : ℚ))
      Traversability.OBSTACLE (2, 2) (rectSamples 0 0 (3 / 100)) c5State).1
    have hanyT : ((rectSamples 0 0 (3 / 100)).any fun q =>
        decide (c5State.laserGrid.getGridPoint
          (addV ((0 : ℚ), (0 : ℚ), (0 : ℚ)) ((fun v => v) (q.1, q.2, 0))) =
            some (2, 2))) = true := by
      rw [hsamp]
      refine List.any_eq_true.mpr ⟨((0 : ℚ), (0 : ℚ)), List.mem_cons_self _ _, ?_⟩
      rw [decide_eq_true_eq]
      exact hgp1
    rw [show markUnknownInRectangeAs (fun v => v) c5State ((0 : ℚ), (0 : ℚ), (0 : ℚ)) 0 0
        (3 / 100) Traversability.OBSTACLE =
        (rectSamples 0 0 (3 / 100)).foldl
          (rectStep (fun v => v) ((0 : ℚ), (0 : ℚ), (0 : ℚ)) Traversability.OBSTACLE)
          c5State from rfl,
      hchar, if_pos ⟨hanyT, Or.inl rfl⟩]
  · have hspec : specRectTranslatedSamples 0 0 (3 / 100) = [((0 : ℚ), (3 / 100 : ℚ))] := by
      unfold specRectTranslatedSamples samplePoints
      rw [if_neg (by norm_num), if_neg (by norm_num)]
      have h1 : (⌊((0 : ℚ) / 2 + 3 / 100 - (-(0 / 2) + 3 / 100)) / (3 / 100)⌋).toNat + 1 = 1 := by
        norm_num
      have h2 : (⌊((0 : ℚ) / 2 - -(0 / 2)) / (3 / 100)⌋).toNat + 1 = 1 := by norm_num
      rw [h1, h2, show List.range 1 = [0] from rfl]
      simp
    rw [hspec]
    intro q hq
    rw [List.mem_singleton] at hq
    subst hq
    rw [show (((0 : ℚ), (3 / 100 : ℚ)).1, ((0 : ℚ), (3 / 100 : ℚ)).2, (0 : ℚ)) =
      (((0 : ℚ), (3 / 100 : ℚ), (0 : ℚ)) : V) from rfl, hgp2]
    simp

/-- Claim C6, amended, for the radius variant: a pose outside the
traversability grid makes markUnknownInRadiusAs fail with the pose error
before any cell is touched; the rectangle variant, by contrast, never fails
and simply skips out-of-grid samples. -/
theorem C6_pose_out_of_grid (st : MapState) (posePosition : V) (radius : ℚ)
    (ttype : Traversability)
    (h : st.traversabilityGrid.getGridPoint posePosition = none) :
    markUnknownInRadiusAs st posePosition radius ttype =
      Except.error (StampError.poseOutOfGrid, st) := by
  unfold markUnknownInRadiusAs
  rw [h]

/-- Claim C6, witness: on the concrete 4 by 4 state, the pose at x equal 10
is out of the grid and the radius stamp fails with the pose error. -/
theorem C6_witness :
    c6State.traversabilityGrid.getGridPoint ((10 : ℚ), (0 : ℚ), (0 : ℚ)) = none ∧
      markUnknownInRadiusAs c6State ((10 : ℚ), (0 : ℚ), (0 : ℚ)) 1 Traversability.OBSTACLE =
        Except.error (StampError.poseOutOfGrid, c6State) :=
  ⟨by norm_num [Grid.getGridPoint, Grid.inGrid, c6State, constTravGrid],
    C6_pose_out_of_grid c6State ((10 : ℚ), (0 : ℚ), (0 : ℚ)) 1 Traversability.OBSTACLE
      (by norm_num [Grid.getGridPoint, Grid.inGrid, c6State, constTravGrid])⟩

/-- Claim C6, counterexample.  The rectangle stamp called with a pose outside
the traversability grid neither fails nor stops: its out-of-grid samples are
silently skipped and the in-grid sample stamps cell (3,2). -/
theorem C6_counterexample :
    c6State.traversabilityGrid.getGridPoint ((2 : ℚ), (0 : ℚ), (0 : ℚ)) = none ∧
    (markUnknownInRectangeAs (fun v => v) c6State ((2 : ℚ), (0 : ℚ), (0 : ℚ)) (6 / 100) 0 0
        Traversability.OBSTACLE).traversabilityGrid.getEntry (3, 2) =
      Traversability.OBSTACLE := by
  have hsamp : rectSamples (6 / 100) 0 0 =
      [((-(3 / 100) : ℚ), (0 : ℚ)), ((0 : ℚ), (0 : ℚ)), ((3 / 100 : ℚ), (0 : ℚ))] := by
    unfold rectSamples samplePoints
    rw [if_neg (by norm_num), if_neg (by norm_num)]
    have h1 : (⌊((0 : ℚ) / 2 + 0 - -(0 / 2)) / (3 / 100)⌋).toNat + 1 = 1 := by norm_num
    have h2 : (⌊((6 : ℚ) / 100 / 2 - -(6 / 100 / 2)) / (3 / 100)⌋).toNat + 1 = 3 := by
      rw [show (⌊((6 : ℚ) / 100 / 2 - -(6 / 100 / 2)) / (3 / 100)⌋ : ℤ) = 2 from by norm_num]
      decide
    rw [h1, h2, show List.range 3 = [0, 1, 2] from rfl, show List.range 1 = [0] from rfl]
    simp
    norm_num
  have hgp1 : c6State.laserGrid.getGridPoint
      (addV ((2 : ℚ), (0 : ℚ), (0 : ℚ)) ((-(3 / 100) : ℚ), (0 : ℚ), (0 : ℚ))) =
        some (3, 2) := by
    norm_num [Grid.getGridPoint, Grid.inGrid, c6State, emptyElevGrid, addV]
  constructor
  · norm_num [Grid.getGridPoint, Grid.inGrid, c6State, constTravGrid]
  · have hchar := (rect_foldl_char (fun v => v) ((2 : ℚ), (0 : ℚ), (0 : ℚ))
      Traversability.OBSTACLE (3, 2) (rectSamples (6 / 100) 0 0) c6State).1
    have hanyT : ((rectSamples (6 / 100) 0 0).any fun q =>
        decide (c6State.laserGrid.getGridPoint
          (addV ((2 : ℚ), (0 : ℚ), (0 : ℚ)) ((fun v => v) (q.1, q.2, 0))) =
            some (3, 2))) = true := by
      rw [hsamp]
      refine List.any_eq_true.mpr ⟨((-(3 / 100) : ℚ), (0 : ℚ)), List.mem_cons_self _ _, ?_⟩
      rw [decide_eq_true_eq]
      exact hgp1
    rw [show markUnknownInRectangeAs (fun v => v) c6State ((2 : ℚ), (0 : ℚ), (0 : ℚ)) (6 / 100)
        0 0 Traversability.OBSTACLE =
        (rectSamples (6 / 100) 0 0).foldl
          (rectStep (fun v => v) ((2 : ℚ), (0 : ℚ), (0 : ℚ)) Traversability.OBSTACLE)
          c6State from rfl,
      hchar, if_pos ⟨hanyT, Or.inl rfl⟩]

theorem radiusMarkCell_geom (gridp : ℤ × ℤ) (ttype : Traversability) (st : MapState)
    (off : ℤ × ℤ) :
    (radiusMarkCell gridp ttype st off).traversabilityGrid.res =
      st.traversabilityGrid.res ∧
    ∀ r, (radiusMarkCell gridp ttype st off).traversabilityGrid.inGrid r =
      st.traversabilityGrid.inGrid r := by
  unfold radiusMarkCell
  by_cases hold : st.traversabilityGrid.getEntry (gridp.1 + off.1, gridp.2 + off.2) =
      UNCLASSIFIED ∨
    st.traversabilityGrid.getEntry (gridp.1 + off.1, gridp.2 + off.2) = UNKNOWN_OBSTACLE
  · rw [if_pos hold]
    by_cases htt : ttype = TRAVERSABLE
    · rw [if_pos htt]
      exact ⟨rfl, fun r => rfl⟩
    · rw [if_neg htt]
      exact ⟨rfl, fun r => rfl⟩
  · rw [if_neg hold]
    exact ⟨rfl, fun r => rfl⟩

theorem radiusMarkStep_geom (gridp : ℤ × ℤ) (radius : ℚ) (ttype : Traversability)
    (st : MapState) (off : ℤ × ℤ) :
    (radiusMarkStep gridp radius ttype st off).traversabilityGrid.res =
      st.traversabilityGrid.res ∧
    ∀ r, (radiusMarkStep gridp radius ttype st off).traversabilityGrid.inGrid r =
      st.traversabilityGrid.inGrid r := by
  unfold radiusMarkStep
  by_cases hskip : radiusSkip st.traversabilityGrid.res radius off = true
  · rw [if_pos hskip]
    exact ⟨rfl, fun r => rfl⟩
  · rw [if_neg hskip]
    exact radiusMarkCell_geom gridp ttype st off

theorem radiusFails_markStep (gridp : ℤ × ℤ) (radius : ℚ) (ttype : Traversability)
    (st : MapState) (off o : ℤ × ℤ) :
    radiusFails (radiusMarkStep gridp radius ttype st off) gridp radius o ↔
      radiusFails st gridp radius o := by
  unfold radiusFails
  rw [(radiusMarkStep_geom gridp radius ttype st off).1,
    (radiusMarkStep_geom gridp radius ttype st off).2 (gridp.1 + o.1, gridp.2 + o.2)]

theorem radiusFails_foldl (gridp : ℤ × ℤ) (radius : ℚ) (ttype : Traversability) :
    ∀ (l : List (ℤ × ℤ)) (st : MapState) (o : ℤ × ℤ),
      radiusFails (l.foldl (radiusMarkStep gridp radius ttype) st) gridp radius o ↔
        radiusFails st gridp radius o := by
  intro l
  induction l with
  | nil => intro st o; exact Iff.rfl
  | cons a t ih =>
    intro st o
    rw [List.foldl_cons]
    exact (ih _ o).trans (radiusFails_markStep gridp radius ttype st a o)

theorem radiusStepM_ok (gridp : ℤ × ℤ) (radius : ℚ) (ttype : Traversability)
    (st : MapState) (off : ℤ × ℤ) (h : ¬ radiusFails st gridp radius off) :
    radiusStepM gridp radius ttype st off =
      pure (radiusMarkStep gridp radius ttype st off) := by
  unfold radiusStepM radiusMarkStep
  by_cases hskip : radiusSkip st.traversabilityGrid.res radius off = true
  · rw [if_pos hskip, if_pos hskip]
  · have hin : st.traversabilityGrid.inGrid (gridp.1 + off.1, gridp.2 + off.2) = true := by
      rcases Bool.eq_false_or_eq_true
        (st.traversabilityGrid.inGrid (gridp.1 + off.1, gridp.2 + off.2)) with hb | hb
      · exact hb
      · exact absurd (show radiusFails st gridp radius off from ⟨by simpa using hskip, hb⟩) h
    rw [if_neg hskip, if_neg hskip, if_pos hin]

theorem radiusStepM_fail (gridp : ℤ × ℤ) (radius : ℚ) (ttype : Traversability)
    (st : MapState) (off : ℤ × ℤ) (h : radiusFails st gridp radius off) :
    radiusStepM gridp radius ttype st off =
      Except.error (StampError.accessOutOfGrid, st) := by
  unfold radiusStepM
  rw [if_neg (by simp [h.1]), if_neg (by simp [h.2])]

theorem radius_foldlM_ok (gridp : ℤ × ℤ) (radius : ℚ) (ttype : Traversability) :
    ∀ (l : List (ℤ × ℤ)) (st : MapState), (∀ o ∈ l, ¬ radiusFails st gridp radius o) →
      l.foldlM (radiusStepM gridp radius ttype) st =
        Except.ok (l.foldl (radiusMarkStep gridp radius ttype) st) := by
  intro l
  induction l with
  | nil => intro st _; rfl
  | cons a t ih =>
    intro st h
    rw [List.foldlM_cons,
      radiusStepM_ok gridp radius ttype st a (h a (List.mem_cons_self _ _)), pure_bind,
      List.foldl_cons]
    exact ih _ (fun o ho hf =>
      h o (List.mem_cons_of_mem a ho)
        ((radiusFails_markStep gridp radius ttype st a o).mp hf))

theorem radius_foldlM_split (gridp : ℤ × ℤ) (radius : ℚ) (ttype : Traversability)
    (pre : List (ℤ × ℤ)) (bad : ℤ × ℤ) (post : List (ℤ × ℤ)) (st : MapState)
    (hpre : ∀ o ∈ pre, ¬ radiusFails st gridp radius o)
    (hbad : radiusFails st gridp radius bad) :
    (pre ++ bad :: post).foldlM (radiusStepM gridp radius ttype) st =
      Except.error (StampError.accessOutOfGrid,
        pre.foldl (radiusMarkStep gridp radius ttype) st) := by
  rw [List.foldlM_append, radius_foldlM_ok gridp radius ttype pre st hpre]
  have hbad2 : radiusFails (pre.foldl (radiusMarkStep gridp radius ttype) st)
      gridp radius bad := (radiusFails_foldl gridp radius ttype pre st bad).mpr hbad
  show ((bad :: post).foldlM (radiusStepM gridp radius ttype)
    (pre.foldl (radiusMarkStep gridp radius ttype) st)) = _
  rw [List.foldlM_cons, radiusStepM_fail gridp radius ttype _ bad hbad2]
  rfl

theorem radiusMarkStep_trav_ne (gridp : ℤ × ℤ) (radius : ℚ) (ttype : Traversability)
    (st : MapState) (off : ℤ × ℤ) (cell : ℤ × ℤ)
    (h : (gridp.1 + off.1, gridp.2 + off.2) ≠ cell) :
    (radiusMarkStep gridp radius ttype st off).traversabilityGrid.getEntry cell =
      st.traversabilityGrid.getEntry cell := by
  unfold radiusMarkStep radiusMarkCell
  by_cases hskip : radiusSkip st.traversabilityGrid.res radius off = true
  · rw [if_pos hskip]
  · rw [if_neg hskip]
    by_cases hold : st.traversabilityGrid.getEntry (gridp.1 + off.1, gridp.2 + off.2) =
        UNCLASSIFIED ∨
      st.traversabilityGrid.getEntry (gridp.1 + off.1, gridp.2 + off.2) = UNKNOWN_OBSTACLE
    · rw [if_pos hold]
      by_cases htt : ttype = TRAVERSABLE
      · rw [if_pos htt]
        exact Grid.getEntry_setEntry_ne _ _ (Ne.symm h)
      · rw [if_neg htt]
        exact Grid.getEntry_setEntry_ne _ _ (Ne.symm h)
    · rw [if_neg hold]

theorem radius_fold_preserve (gridp : ℤ × ℤ) (radius : ℚ) (ttype : Traversability) :
    ∀ (l : List (ℤ × ℤ)) (st : MapState) (cell : ℤ × ℤ),
      (∀ o ∈ l, (gridp.1 + o.1, gridp.2 + o.2) ≠ cell) →
      (l.foldl (radiusMarkStep gridp radius ttype) st).traversabilityGrid.getEntry cell =
        st.traversabilityGrid.getEntry cell := by
  intro l
  induction l with
  | nil => intro st cell _; rfl
  | cons a t ih =>
    intro st cell h
    rw [List.foldl_cons, ih _ cell (fun o ho => h o (List.mem_cons_of_mem a ho)),
      radiusMarkStep_trav_ne gridp radius ttype st a cell (h a (List.mem_cons_self _ _))]

theorem radiusMarkStep_mark (gridp : ℤ × ℤ) (radius : ℚ) (ttype : Traversability)
    (st : MapState) (off : ℤ × ℤ)
    (hskip : radiusSkip st.traversabilityGrid.res radius off = false)
    (hold : st.traversabilityGrid.getEntry (gridp.1 + off.1, gridp.2 + off.2) =
        UNCLASSIFIED ∨
      st.traversabilityGrid.getEntry (gridp.1 + off.1, gridp.2 + off.2) =
        UNKNOWN_OBSTACLE) :
    (radiusMarkStep gridp radius ttype st off).traversabilityGrid.getEntry
      (gridp.1 + off.1, gridp.2 + off.2) = ttype := by
  unfold radiusMarkStep radiusMarkCell
  rw [if_neg (by simp [hskip]), if_pos hold]
  by_cases htt : ttype = TRAVERSABLE
  · rw [if_pos htt]
    exact Grid.getEntry_setEntry_self _ _ _
  · rw [if_neg htt]
    exact Grid.getEntry_setEntry_self _ _ _

theorem radius_fold_mark (gridp : ℤ × ℤ) (radius : ℚ) (ttype : Traversability) :
    ∀ (l : List (ℤ × ℤ)) (st : MapState) (o : ℤ × ℤ), o ∈ l → l.Nodup →
      radiusSkip st.traversabilityGrid.res radius o = false →
      (st.traversabilityGrid.getEntry (gridp.1 + o.1, gridp.2 + o.2) = UNCLASSIFIED ∨
        st.traversabilityGrid.getEntry (gridp.1 + o.1, gridp.2 + o.2) =
          UNKNOWN_OBSTACLE) →
      (l.foldl (radiusMarkStep gridp radius ttype) st).traversabilityGrid.getEntry
        (gridp.1 + o.1, gridp.2 + o.2) = ttype := by
  intro l
  induction l with
  | nil => intro st o ho; exact absurd ho (List.not_mem_nil o)
  | cons a t ih =>
    intro st o ho hnd hskip hold
    rw [List.foldl_cons]
    by_cases hot : o ∈ t
    · have hao : a ≠ o := fun hh => (List.nodup_cons.mp hnd).1 (hh ▸ hot)
      have hne : ((gridp.1 + a.1, gridp.2 + a.2) : ℤ × ℤ) ≠
          (gridp.1 + o.1, gridp.2 + o.2) := by
        intro hh
        rw [Prod.mk.injEq] at hh
        exact hao (Prod.ext (by omega) (by omega))
      refine ih _ o hot (List.nodup_cons.mp hnd).2 ?_ ?_
      · rw [(radiusMarkStep_geom gridp radius ttype st a).1]
        exact hskip
      · rw [radiusMarkStep_trav_ne gridp radius ttype st a _ hne]
        exact hold
    · have hoa : o = a := by
        rcases List.mem_cons.mp ho with hh | hh
        · exact hh
        · exact absurd hh hot
      subst hoa
      rw [radius_fold_preserve gridp radius ttype t _ _ ?_]
      · exact radiusMarkStep_mark gridp radius ttype st o hskip hold
      · intro o' ho' hh
        rw [Prod.mk.injEq] at hh
        have ho'o : o' = o := Prod.ext (by omega) (by omega)
        exact hot (ho'o ▸ ho')

theorem nodup_intRange (lo hi : ℤ) : (intRange lo hi).Nodup := by
  unfold intRange
  refine List.Nodup.map ?_ (List.nodup_range _)
  intro a b hab
  dsimp only at hab
  omega

theorem nodup_radiusOffsets (rg : ℤ) : (radiusOffsets rg).Nodup := by
  unfold radiusOffsets
  rw [List.nodup_flatMap]
  constructor
  · intro x _
    exact List.Nodup.map (fun a b hab => congrArg Prod.snd hab)
      (nodup_intRange (-rg) rg)
  · refine List.Pairwise.imp ?_ (nodup_intRange (-rg) rg)
    intro x y hxy a hax hay
    rw [List.mem_map] at hax hay
    obtain ⟨u, -, hu⟩ := hax
    obtain ⟨v, -, hv⟩ := hay
    apply hxy
    rw [← hu] at hv
    exact (congrArg Prod.fst hv).symm

/-- Claim C10, amended.  For a pose inside the traversability grid, if the
iterated offset square of the radius stamp contains an offset that passes the
circle test but whose target cell is out of the grid, the stamp aborts at the
first such offset with the access error, and the error carries the partially
mutated state: every earlier in-circle offset whose cell was UNCLASSIFIED or
UNKNOWN_OBSTACLE keeps its freshly overwritten class.  The operation is not
atomic on this error.  A cell within the radius but at offset outside the
iterated square, which runs to radiusGrid exclusive, raises no error. -/
theorem C10_radius_partial_failure (st : MapState) (posePosition : V) (radius : ℚ)
    (ttype : Traversability) (gridp : ℤ × ℤ)
    (hgp : st.traversabilityGrid.getGridPoint posePosition = some gridp)
    (pre : List (ℤ × ℤ)) (bad : ℤ × ℤ) (post : List (ℤ × ℤ))
    (hsplit : radiusOffsets (ratTrunc (radius / st.traversabilityGrid.res)) =
      pre ++ bad :: post)
    (hpre : ∀ o ∈ pre, ¬ radiusFails st gridp radius o)
    (hbad : radiusFails st gridp radius bad) :
    markUnknownInRadiusAs st posePosition radius ttype =
      Except.error (StampError.accessOutOfGrid,
        pre.foldl (radiusMarkStep gridp radius ttype) st) ∧
    ∀ o ∈ pre, radiusSkip st.traversabilityGrid.res radius o = false →
      (st.traversabilityGrid.getEntry (gridp.1 + o.1, gridp.2 + o.2) = UNCLASSIFIED ∨
        st.traversabilityGrid.getEntry (gridp.1 + o.1, gridp.2 + o.2) =
          UNKNOWN_OBSTACLE) →
      (pre.foldl (radiusMarkStep gridp radius ttype) st).traversabilityGrid.getEntry
        (gridp.1 + o.1, gridp.2 + o.2) = ttype := by
  have hnd : pre.Nodup := by
    have := nodup_radiusOffsets (ratTrunc (radius / st.traversabilityGrid.res))
    rw [hsplit] at this
    exact this.of_append_left
  constructor
  · unfold markUnknownInRadiusAs
    rw [hgp]
    dsimp only
    rw [hsplit]
    exact radius_foldlM_split gridp radius ttype pre bad post st hpre hbad
  · intro o ho hskip hold
    exact radius_fold_mark gridp radius ttype pre st o ho hnd hskip hold

/-- Claim C10, counterexample.  On the 2 by 3 grid with the pose in cell
(1,1) and radius one, cell (2,1), one cell to the right, lies within the
radius (offset distance one) yet outside the grid; still the radius stamp
completes without error, because the loop range excludes the offset
radiusGrid itself. -/
theorem C10_counterexample :
    (Except.isOk (markUnknownInRadiusAs c10State ((0 : ℚ), (0 : ℚ), (0 : ℚ)) 1
      Traversability.OBSTACLE)) = true ∧
    c10State.traversabilityGrid.getGridPoint ((0 : ℚ), (0 : ℚ), (0 : ℚ)) = some (1, 1) ∧
    ((1 : ℚ) * c10State.traversabilityGrid.res) ^ 2 +
      ((0 : ℚ) * c10State.traversabilityGrid.res) ^ 2 ≤ 1 ^ 2 ∧
    c10State.traversabilityGrid.inGrid (1 + 1, 1 + 0) = false := by
  have hgp : c10State.traversabilityGrid.getGridPoint ((0 : ℚ), (0 : ℚ), (0 : ℚ)) =
      some (1, 1) := by
    norm_num [Grid.getGridPoint, Grid.inGrid, c10State, constTravGrid]
  have htr : ratTrunc (1 / c10State.traversabilityGrid.res) = 1 := by
    norm_num [ratTrunc, c10State, constTravGrid]
  have hsplit : radiusOffsets (ratTrunc (1 / c10State.traversabilityGrid.res)) =
      [((-1 : ℤ), (-1 : ℤ)), ((-1 : ℤ), (0 : ℤ)), ((0 : ℤ), (-1 : ℤ)),
        ((0 : ℤ), (0 : ℤ))] := by
    rw [htr]
    decide
  have hok : markUnknownInRadiusAs c10State ((0 : ℚ), (0 : ℚ), (0 : ℚ)) 1
      Traversability.OBSTACLE =
      Except.ok ((radiusOffsets (ratTrunc (1 / c10State.traversabilityGrid.res))).foldl
        (radiusMarkStep (1, 1) 1 Traversability.OBSTACLE) c10State) := by
    unfold markUnknownInRadiusAs
    rw [hgp]
    dsimp only
    refine radius_foldlM_ok (1, 1) 1 Traversability.OBSTACLE _ c10State ?_
    rw [hsplit]
    intro o ho hf
    simp only [List.mem_cons, List.not_mem_nil, or_false] at ho
    rcases ho with rfl | rfl | rfl | rfl
    · exact absurd hf.1 (by norm_num [radiusSkip, c10State, constTravGrid])
    · exact absurd hf.2 (by decide)
    · exact absurd hf.2 (by decide)
    · exact absurd hf.2 (by decide)
  refine ⟨?_, hgp, by norm_num [c10State, constTravGrid], by decide⟩
  rw [hok]
  rfl

/-- Claim C10, witness: with the pose in cell (0,1) of the 2 by 3 grid and
radius one, the offset (-1,0) passes the circle test but leaves the grid, so
the theorem applies with the singleton skipped prefix. -/
theorem C10_witness :
    c10State.traversabilityGrid.getGridPoint ((-1 : ℚ), (0 : ℚ), (0 : ℚ)) =
      some (0, 1) ∧
    radiusOffsets (ratTrunc (1 / c10State.traversabilityGrid.res)) =
      [((-1 : ℤ), (-1 : ℤ))] ++ ((-1 : ℤ), (0 : ℤ)) ::
        [((0 : ℤ), (-1 : ℤ)), ((0 : ℤ), (0 : ℤ))] ∧
    (∀ o ∈ [((-1 : ℤ), (-1 : ℤ))], ¬ radiusFails c10State (0, 1) 1 o) ∧
    radiusFails c10State (0, 1) 1 ((-1 : ℤ), (0 : ℤ)) ∧
    (markUnknownInRadiusAs c10State ((-1 : ℚ), (0 : ℚ), (0 : ℚ)) 1
        Traversability.OBSTACLE =
      Except.error (StampError.accessOutOfGrid,
        ([((-1 : ℤ), (-1 : ℤ))]).foldl (radiusMarkStep (0, 1) 1 Traversability.OBSTACLE)
          c10State) ∧
    ∀ o ∈ [((-1 : ℤ), (-1 : ℤ))],
      radiusSkip c10State.traversabilityGrid.res 1 o = false →
      (c10State.traversabilityGrid.getEntry ((0 : ℤ) + o.1, (1 : ℤ) + o.2) =
          UNCLASSIFIED ∨
        c10State.traversabilityGrid.getEntry ((0 : ℤ) + o.1, (1 : ℤ) + o.2) =
          UNKNOWN_OBSTACLE) →
      (([((-1 : ℤ), (-1 : ℤ))]).foldl (radiusMarkStep (0, 1) 1 Traversability.OBSTACLE)
        c10State).traversabilityGrid.getEntry ((0 : ℤ) + o.1, (1 : ℤ) + o.2) =
          Traversability.OBSTACLE) := by
  have hgp : c10State.traversabilityGrid.getGridPoint ((-1 : ℚ), (0 : ℚ), (0 : ℚ)) =
      some (0, 1) := by
    norm_num [Grid.getGridPoint, Grid.inGrid, c10State, constTravGrid]
  have htr : ratTrunc (1 / c10State.traversabilityGrid.res) = 1 := by
    norm_num [ratTrunc, c10State, constTravGrid]
  have hsplit : radiusOffsets (ratTrunc (1 / c10State.traversabilityGrid.res)) =
      [((-1 : ℤ), (-1 : ℤ))] ++ ((-1 : ℤ), (0 : ℤ)) ::
        [((0 : ℤ), (-1 : ℤ)), ((0 : ℤ), (0 : ℤ))] := by
    rw [htr]
    decide
  have hpre : ∀ o ∈ [((-1 : ℤ), (-1 : ℤ))], ¬ radiusFails c10State (0, 1) 1 o := by
    intro o ho hf
    rw [List.mem_singleton] at ho
    subst ho
    exact absurd hf.1 (by norm_num [radiusSkip, c10State, constTravGrid])
  have hbad : radiusFails c10State (0, 1) 1 ((-1 : ℤ), (0 : ℤ)) := by
    constructor
    · norm_num [radiusSkip, c10State, constTravGrid]
    · decide
  exact ⟨hgp, hsplit, hpre, hbad,
    C10_radius_partial_failure c10State ((-1 : ℚ), (0 : ℚ), (0 : ℚ)) 1
      Traversability.OBSTACLE (0, 1) hgp [((-1 : ℤ), (-1 : ℤ))] ((-1 : ℤ), (0 : ℤ))
      [((0 : ℤ), (-1 : ℤ)), ((0 : ℤ), (0 : ℤ))] hsplit hpre hbad⟩

/-- Claim C4.  Every call to addLaserScan adds the filtered scan points to
the, possibly recentered, laser elevation grid, whatever it returns; it
returns false exactly when the squared translational displacement since the
last accepted ingest is below 0.05 squared meters and the laser Y axis
angular change is below five degrees; and the stored transforms are updated
exactly when it returns true.  The other grids are untouched. -/
theorem C4_addLaserScan {T LS : Type} (G : ExtGeom T LS) (st : GenState T) (ls : LS)
    (body2Odo laser2Body : T) :
    ((addLaserScan G st ls body2Odo laser2Body).1.maps.laserGrid =
      addScanPoints
        (moveGridIfRobotNearBoundary st.maps.boundarySize st.maps.laserGrid
          (G.translation body2Odo)).1
        (filterLaserScan G ls laser2Body (G.compose body2Odo laser2Body)
          maskedAreasDefault)) ∧
    ((addLaserScan G st ls body2Odo laser2Body).2 = false ↔
      sqNorm (G.translation (G.compose (G.inverse st.lastBody2Odo) body2Odo)) < 1 / 400 ∧
        G.laserYAngleDeg (G.compose body2Odo laser2Body) st.lastLaser2Odo < 5) ∧
    ((addLaserScan G st ls body2Odo laser2Body).1.lastBody2Odo =
      if (addLaserScan G st ls body2Odo laser2Body).2 = true then body2Odo
      else st.lastBody2Odo) ∧
    ((addLaserScan G st ls body2Odo laser2Body).1.lastLaser2Odo =
      if (addLaserScan G st ls body2Odo laser2Body).2 = true then
        G.compose body2Odo laser2Body
      else st.lastLaser2Odo) ∧
    (addLaserScan G st ls body2Odo laser2Body).1.maps.interpolatedGrid =
      st.maps.interpolatedGrid ∧
    (addLaserScan G st ls body2Odo laser2Body).1.maps.traversabilityGrid =
      st.maps.traversabilityGrid := by
  unfold addLaserScan
  by_cases hc : sqNorm (G.translation (G.compose (G.inverse st.lastBody2Odo) body2Odo)) <
      1 / 400 ∧
    G.laserYAngleDeg (G.compose body2Odo laser2Body) st.lastLaser2Odo < 5
  · rw [if_pos hc]
    exact ⟨rfl, iff_of_true rfl hc, by rw [if_neg Bool.false_ne_true],
      by rw [if_neg Bool.false_ne_true], rfl, rfl⟩
  · rw [if_neg hc]
    exact ⟨rfl, iff_of_false (by simp) hc, by rw [if_pos rfl], by rw [if_pos rfl], rfl, rfl⟩

end VfhStar
